import Mathlib

/-
  Verification of the HRWSI processing-orchestration pipeline
  (Harvester / Triggerer / Orchestrator / Launcher) against its
  natural-language specification.

  The Python sources are shallowly embedded: every SQL request of
  queries_and_constants.py becomes a pure function over an explicit
  database state, and the relevant methods of harvester.py,
  triggerer.py, orchestrator.py and nrt_launcher.py become Lean
  functions over that state.  Timestamps are integers (seconds),
  `measurement_day` is kept as its YYYYMMDD integer (date comparison
  on dates equals integer comparison on the YYYYMMDD encoding), and
  nullable SQL columns become `Option`.  Fallible code paths (a
  `fetchone()` returning no row that the Python would then subscript)
  are modelled with `Option`.
-/

set_option maxHeartbeats 1000000

namespace Hrwsi

/-- One row of `hrwsi.raw_inputs` (see INSERT_CANDIDATE_REQUEST in
queries_and_constants.py).  `isPartial` embeds the `is_partial`
column. -/
structure RawInput where
  id : String
  product_type_code : String
  start_date : Int
  publishing_date : Option Int
  tile : String
  measurement_day : Int
  relative_orbit_number : Option Int
  input_path : String
  isPartial : Bool
  harvesting_date : Int
deriving Repr, DecidableEq

/-- One row of `hrwsi.trigger_validation` (columns used by the code:
the INSERT provides triggering_condition_name, validation_date,
is_nrt, artificial_measurement_day; the serial id is returned).  The
validation_date column is never read back by the embedded code paths
and is omitted. -/
structure TriggerValidation where
  id : Nat
  triggering_condition_name : String
  is_nrt : Bool
  artificial_measurement_day : Option Int
deriving Repr, DecidableEq

/-- One row of `hrwsi.raw2valid`. -/
structure Raw2Valid where
  trigger_validation_id : Nat
  raw_input_id : String
deriving Repr, DecidableEq

/-- One row of `hrwsi.processing_tasks` (columns used by the embedded
code; virtual_machine_id, preceding_input_id and
intermediate_files_path are never consulted by the modelled paths). -/
structure ProcessingTask where
  id : Nat
  trigger_validation_fk_id : Nat
  creation_date : Int
  has_ended : Bool
  processing_date : Option Int
deriving Repr, DecidableEq

/-- One row of `hrwsi.nomad_job_dispatch`. -/
structure NomadJobDispatch where
  id : String
  dispatch_date : Int
deriving Repr, DecidableEq

/-- One row of `hrwsi.processingtask2nomad`. -/
structure PT2Nomad where
  nomad_job_id : String
  processing_task_id : Nat
deriving Repr, DecidableEq

/-- One row of `hrwsi.processing_status_workflow`. -/
structure ProcessingStatusWorkflow where
  nomad_job_dispatch_fk_id : String
  processing_status_id : Int
  date : Int
  exit_code : Option Int
deriving Repr, DecidableEq

/-- One row of `hrwsi.triggering_condition`. -/
structure TriggeringCondition where
  name : String
  processing_routine_name : String
deriving Repr, DecidableEq

/-- One row of `hrwsi.processing_routine` (columns consulted by the
launcher queries: name, product type, flavour, duration in minutes). -/
structure ProcessingRoutine where
  name : String
  product_type_code : String
  flavour : String
  duration : Int
deriving Repr, DecidableEq

/-- One row of `hrwsi.products` (only the trigger-validation foreign
key is consulted, by IS_PREVIOUS_L2A_EXISTS_FOR_THIS_TC_TILE_AND
_MEASUREMENT_DAY_INTERVAL). -/
structure ProductRow where
  id : String
  trigger_validation_fk_id : Nat
deriving Repr, DecidableEq

/-- One row of `systemparams.wekeo_api_manager`
(GET_WEKEO_API_MANAGER_PARAMS).  Dates are YYYYMMDD integers for the
bookmark, window sizes are day counts. -/
structure WekeoConfigRow where
  triggering_condition_name : String
  input_type : String
  max_day_since_publication_date : Int
  max_day_since_measurement_date : Int
  timeliness : Option String
  nrt_harvest_start_date : Option Int
deriving Repr, DecidableEq

/-- The shared relational store coordinating the four components.
`next_tv_id` and `next_pt_id` model the serial id sequences. -/
structure HrwsiDB where
  raw_inputs : List RawInput
  trigger_validation : List TriggerValidation
  raw2valid : List Raw2Valid
  processing_tasks : List ProcessingTask
  nomad_job_dispatch : List NomadJobDispatch
  processingtask2nomad : List PT2Nomad
  processing_status_workflow : List ProcessingStatusWorkflow
  triggering_condition : List TriggeringCondition
  processing_routine : List ProcessingRoutine
  products : List ProductRow
  wekeo_api_manager : List WekeoConfigRow
  next_tv_id : Nat
  next_pt_id : Nat
deriving Repr, DecidableEq

/- ------------------------------------------------------------------
   Harvester: idempotent insertion of raw inputs (claim C3).
   INSERT_CANDIDATE_REQUEST carries ON CONFLICT (id) DO NOTHING: the
   insert is a no-op whenever a row with the same id already exists,
   and otherwise appends the new row.
   ------------------------------------------------------------------ -/

/-- `INSERT INTO hrwsi.raw_inputs ... ON CONFLICT (id) DO NOTHING`
(INSERT_CANDIDATE_REQUEST, executed by Harvester.harvest_input on the
tuples surviving identify_new_candidate). -/
def insert_candidate (raw_inputs : List RawInput) (r : RawInput) : List RawInput :=
  if raw_inputs.any (fun x => decide (x.id = r.id)) then raw_inputs
  else raw_inputs ++ [r]

/-- Number of `raw_inputs` rows carrying a given identifier. -/
def count_by_id (raw_inputs : List RawInput) (rid : String) : Nat :=
  (raw_inputs.filter (fun x => decide (x.id = rid))).length

theorem insert_candidate_mem_self (raw_inputs : List RawInput) (r : RawInput)
    (h : raw_inputs.any (fun x => decide (x.id = r.id)) = false) :
    r ∈ insert_candidate raw_inputs r := by
  unfold insert_candidate
  rw [h]
  simp

/-- C3: the Harvester insert of a raw input is idempotent.  If no row
with identifier `r.id` is present, then after inserting `r` (a) any
further insert of an item `r2` with the same identifier is a no-op,
(b) exactly one row with that identifier exists, and (c) the first
inserted row is still present unchanged. -/
theorem harvester_idempotent (raw_inputs : List RawInput) (r r2 : RawInput)
    (hfresh : raw_inputs.any (fun x => decide (x.id = r.id)) = false)
    (hid : r2.id = r.id) :
    insert_candidate (insert_candidate raw_inputs r) r2 = insert_candidate raw_inputs r ∧
    count_by_id (insert_candidate raw_inputs r) r.id = 1 ∧
    r ∈ insert_candidate raw_inputs r := by
  have hins : insert_candidate raw_inputs r = raw_inputs ++ [r] := by
    unfold insert_candidate
    rw [hfresh]
    simp
  have hfree : ∀ a ∈ raw_inputs, ¬ a.id = r.id := by
    intro a ha hcontra
    have hany : raw_inputs.any (fun x => decide (x.id = r.id)) = true :=
      List.any_eq_true.mpr ⟨a, ha, by simp [hcontra]⟩
    rw [hfresh] at hany
    exact absurd hany (by simp)
  refine ⟨?_, ?_, insert_candidate_mem_self raw_inputs r hfresh⟩
  · rw [hins]
    unfold insert_candidate
    have hany : ((raw_inputs ++ [r]).any fun x => decide (x.id = r2.id)) = true := by
      simp [List.any_append, hid]
    rw [hany]
    simp
  · rw [hins]
    unfold count_by_id
    rw [List.filter_append]
    have h1 : raw_inputs.filter (fun x => decide (x.id = r.id)) = [] := by
      rw [List.filter_eq_nil_iff]
      intro a ha
      simp only [decide_eq_true_eq]
      exact hfree a ha
    rw [h1]
    simp

/-- Witness for `harvester_idempotent` at a concrete raw input. -/
theorem harvester_idempotent_witness :
    let r : RawInput :=
      { id := "GRD1", product_type_code := "IW_GRDH_1S", start_date := 0,
        publishing_date := some 10, tile := "31TCH", measurement_day := 20250301,
        relative_orbit_number := some 8, input_path := "a/b", isPartial := false,
        harvesting_date := 20 }
    insert_candidate (insert_candidate [] r) r = insert_candidate [] r ∧
    count_by_id (insert_candidate [] r) r.id = 1 ∧
    r ∈ insert_candidate [] r := by
  intro r
  exact harvester_idempotent [] r r (by decide) rfl

/- ------------------------------------------------------------------
   Triggerer core: NRT flag and create_trigger_validation.
   ------------------------------------------------------------------ -/

/-- GET_PAST_HARVEST_DATE_REQ + Triggerer.get_nrt_harvesting_date:
only for product types `S2MSI1C` and `IW_GRDH_1S` is the
`nrt_harvest_start_date` bookmark looked up in
systemparams.wekeo_api_manager (`int(... or 0)` turns a NULL bookmark
into 0); for every other product type the method returns its initial
value 0 without touching the store.  `none` models the TypeError the
Python raises when `fetchone()` finds no configuration row. -/
def get_nrt_harvesting_date (db : HrwsiDB) (product_type_code : String) : Option Int :=
  if product_type_code = "S2MSI1C" ∨ product_type_code = "IW_GRDH_1S" then
    (db.wekeo_api_manager.find? (fun w => decide (w.input_type = product_type_code))).map
      (fun w => w.nrt_harvest_start_date.getD 0)
  else some 0

/-- IS_NRT_FROM_PAST_HARVEST_DATE_REQ / IS_NRT_FROM_NOW_HARVEST_DATE_REQ
+ Triggerer.is_raw_input_nrt: with a truthy (nonzero) `nrt_start_date`
the raw input is NRT iff its measurement day reaches the bookmark;
otherwise iff its harvesting date lies in
[publishing_date, publishing_date + 3 h] with both dates non-null
(harvesting_date is always set by the insert).  `none` models the
row-not-found TypeError. -/
def is_raw_input_nrt (db : HrwsiDB) (nrt_start_date : Int) (raw_input_id : String) :
    Option Bool :=
  (db.raw_inputs.find? (fun x => decide (x.id = raw_input_id))).map (fun r =>
    if nrt_start_date ≠ 0 then decide (r.measurement_day ≥ nrt_start_date)
    else
      match r.publishing_date with
      | some p => decide (p ≤ r.harvesting_date) && decide (r.harvesting_date ≤ p + 10800)
      | none => false)

/-- The NRT computation create_trigger_validation performs for one raw
input (get_nrt_harvesting_date followed by is_raw_input_nrt). -/
def input_is_nrt (db : HrwsiDB) (r : RawInput) : Option Bool := do
  let s ← get_nrt_harvesting_date db r.product_type_code
  is_raw_input_nrt db s r.id

/-- The loop of create_trigger_validation computes the NRT flag of
every bundled raw input (the flag of the first one is the one stored
in the inserted row). -/
def input_is_nrt_list (db : HrwsiDB) : List RawInput → Option (List Bool)
  | [] => some []
  | r :: rs => do
    let b ← input_is_nrt db r
    let bs ← input_is_nrt_list db rs
    some (b :: bs)

/-- One autocommitted SQL write of the Triggerer: the connections the
Triggerer uses are in ISOLATION_LEVEL_AUTOCOMMIT, so every INSERT is
its own transaction and becomes durable on its own. -/
inductive DbWrite where
  | insTV (tv : TriggerValidation)
  | insR2V (e : Raw2Valid)
deriving Repr, DecidableEq

def apply_write (db : HrwsiDB) : DbWrite → HrwsiDB
  | .insTV tv =>
    { db with trigger_validation := db.trigger_validation ++ [tv],
              next_tv_id := max db.next_tv_id (tv.id + 1) }
  | .insR2V e => { db with raw2valid := db.raw2valid ++ [e] }

def apply_writes (db : HrwsiDB) (ws : List DbWrite) : HrwsiDB :=
  ws.foldl apply_write db

/-- Triggerer.create_trigger_validation as the sequence of
autocommitted statements it issues, in program order: the
INSERT_TRIGGER_VALIDATION happens during the first loop iteration
(storing the first input's NRT flag), and all INSERT_RAW2VALID rows
are executed together after the loop.  With an empty `data` list
nothing at all is written. -/
def create_trigger_validation_ops (db : HrwsiDB) (data : List RawInput)
    (tc_name : String) (artificial_measurement_day : Option Int) :
    Option (List DbWrite) := do
  let nrts ← input_is_nrt_list db data
  match nrts with
  | [] => some []
  | is_nrt :: _ =>
    some (DbWrite.insTV
        { id := db.next_tv_id, triggering_condition_name := tc_name,
          is_nrt := is_nrt, artificial_measurement_day := artificial_measurement_day }
      :: data.map (fun r =>
          DbWrite.insR2V { trigger_validation_id := db.next_tv_id, raw_input_id := r.id }))

/-- The store state after a complete (non-interrupted) run of
create_trigger_validation. -/
def create_trigger_validation (db : HrwsiDB) (data : List RawInput)
    (tc_name : String) (artificial_measurement_day : Option Int) : Option HrwsiDB :=
  (create_trigger_validation_ops db data tc_name artificial_measurement_day).map
    (apply_writes db)

theorem apply_writes_r2v_list (db : HrwsiDB) (es : List Raw2Valid) :
    apply_writes db (es.map DbWrite.insR2V) =
      { db with raw2valid := db.raw2valid ++ es } := by
  induction es generalizing db with
  | nil => simp [apply_writes]
  | cons e es ih =>
    simp only [List.map_cons, apply_writes, List.foldl_cons]
    rw [show (apply_write db (DbWrite.insR2V e)) = { db with raw2valid := db.raw2valid ++ [e] } from rfl]
    have := ih { db with raw2valid := db.raw2valid ++ [e] }
    simp only [apply_writes] at this
    rw [this]
    simp

theorem input_is_nrt_list_nil_iff (db : HrwsiDB) (data : List RawInput) (l : List Bool)
    (h : input_is_nrt_list db data = some l) : l.length = data.length := by
  induction data generalizing l with
  | nil => simp [input_is_nrt_list] at h; simp [← h]
  | cons r rs ih =>
    simp only [input_is_nrt_list, Option.bind_eq_bind, Option.bind_eq_some] at h
    obtain ⟨b, _, bs, hbs, hl⟩ := h
    obtain rfl : b :: bs = l := by injection hl
    simp [ih bs hbs]

/-- Characterization of a successful create_trigger_validation on a
non-empty bundle: one fresh trigger_validation row carrying the first
input's NRT flag, one raw2valid edge per bundled input, and the id
sequence advanced. -/
theorem create_tv_some (db : HrwsiDB) (data : List RawInput) (tc : String)
    (amd : Option Int) (b : Bool) (bs : List Bool)
    (hm : input_is_nrt_list db data = some (b :: bs)) :
    create_trigger_validation db data tc amd = some
      { db with
        trigger_validation := db.trigger_validation ++
          [{ id := db.next_tv_id, triggering_condition_name := tc,
             is_nrt := b, artificial_measurement_day := amd }],
        raw2valid := db.raw2valid ++ data.map (fun r =>
          { trigger_validation_id := db.next_tv_id, raw_input_id := r.id }),
        next_tv_id := db.next_tv_id + 1 } := by
  unfold create_trigger_validation create_trigger_validation_ops
  rw [hm]
  simp only [Option.bind_eq_bind, Option.some_bind, Option.map_some, Option.map_some']
  congr 1
  unfold apply_writes
  rw [List.foldl_cons]
  have hmax : max db.next_tv_id (db.next_tv_id + 1) = db.next_tv_id + 1 := by omega
  have h1 : apply_write db (DbWrite.insTV
      { id := db.next_tv_id, triggering_condition_name := tc,
        is_nrt := b, artificial_measurement_day := amd }) =
      { db with
        trigger_validation := db.trigger_validation ++
          [{ id := db.next_tv_id, triggering_condition_name := tc,
             is_nrt := b, artificial_measurement_day := amd }],
        next_tv_id := db.next_tv_id + 1 } := by
    simp only [apply_write]
    rw [hmax]
  rw [h1]
  have h2 := apply_writes_r2v_list
    { db with
      trigger_validation := db.trigger_validation ++
        [{ id := db.next_tv_id, triggering_condition_name := tc,
           is_nrt := b, artificial_measurement_day := amd }],
      next_tv_id := db.next_tv_id + 1 }
    (data.map (fun r => { trigger_validation_id := db.next_tv_id, raw_input_id := r.id }))
  simp only [apply_writes] at h2
  rw [List.map_map] at h2
  exact h2

theorem create_tv_nil (db : HrwsiDB) (tc : String) (amd : Option Int) :
    create_trigger_validation db [] tc amd = some db := by
  simp [create_trigger_validation, create_trigger_validation_ops, input_is_nrt_list,
    apply_writes]

/-- Auxiliary: filtering with pointwise-equal predicates. -/
theorem filter_congr_mem {α : Type} (l : List α) (p q : α → Bool)
    (h : ∀ x ∈ l, p x = q x) : l.filter p = l.filter q := by
  induction l with
  | nil => rfl
  | cons a l ih =>
    simp only [List.filter_cons]
    rw [h a (by simp), ih (fun x hx => h x (by simp [hx]))]

/-- The `raw2valid` join used throughout: does an edge link validation
`tv_id` to raw input `rid`? -/
def has_edge (db : HrwsiDB) (tv_id : Nat) (rid : String) : Bool :=
  db.raw2valid.any (fun e =>
    decide (e.trigger_validation_id = tv_id) && decide (e.raw_input_id = rid))

/-- Number of trigger_validation rows for rule `tc` that carry a
raw2valid edge to input `rid` (the multiplicity the rule-input
idempotence invariant is about). -/
def tv_count_for (db : HrwsiDB) (rid : String) (tc : String) : Nat :=
  (db.trigger_validation.filter (fun tv =>
    decide (tv.triggering_condition_name = tc) && has_edge db tv.id rid)).length

/-- IS_ONE_TRIGGER_VALIDATION_EXISTS_FOR_AN_INPUT: `SELECT NOT EXISTS
(tv JOIN raw2valid WHERE raw_input_id = rid AND
triggering_condition_name = tc)`. -/
def probe_no_validation_exists (db : HrwsiDB) (rid : String) (tc : String) : Bool :=
  ! db.trigger_validation.any (fun tv =>
    decide (tv.triggering_condition_name = tc) && has_edge db tv.id rid)

/-- The serial id sequence dominates every stored id. -/
def ids_below (db : HrwsiDB) : Prop :=
  (∀ tv ∈ db.trigger_validation, tv.id < db.next_tv_id) ∧
  (∀ e ∈ db.raw2valid, e.trigger_validation_id < db.next_tv_id)

theorem probe_iff_count_zero (db : HrwsiDB) (rid tc : String) :
    probe_no_validation_exists db rid tc = true ↔ tv_count_for db rid tc = 0 := by
  unfold probe_no_validation_exists tv_count_for
  rw [Bool.not_eq_true']
  rw [List.any_eq_false]
  rw [List.length_eq_zero, List.filter_eq_nil_iff]

/-- Any successful create_trigger_validation either got an empty
bundle (and wrote nothing) or wrote exactly one fresh validation plus
one edge per bundled input. -/
theorem create_tv_shape (db : HrwsiDB) (data : List RawInput) (tc : String)
    (amd : Option Int) (db2 : HrwsiDB)
    (h : create_trigger_validation db data tc amd = some db2) :
    (data = [] ∧ db2 = db) ∨
    ∃ b bs, input_is_nrt_list db data = some (b :: bs) ∧ db2 =
      { db with
        trigger_validation := db.trigger_validation ++
          [{ id := db.next_tv_id, triggering_condition_name := tc,
             is_nrt := b, artificial_measurement_day := amd }],
        raw2valid := db.raw2valid ++ data.map (fun r =>
          { trigger_validation_id := db.next_tv_id, raw_input_id := r.id }),
        next_tv_id := db.next_tv_id + 1 } := by
  cases data with
  | nil =>
    left
    refine ⟨rfl, ?_⟩
    rw [create_tv_nil] at h
    exact (Option.some.inj h).symm
  | cons d ds =>
    right
    cases hl : input_is_nrt_list db (d :: ds) with
    | none =>
      rw [create_trigger_validation, create_trigger_validation_ops] at h
      rw [hl] at h
      simp at h
    | some l =>
      cases l with
      | nil =>
        have hlen := input_is_nrt_list_nil_iff db (d :: ds) [] hl
        simp at hlen
      | cons b bs =>
        refine ⟨b, bs, rfl, ?_⟩
        rw [create_tv_some db (d :: ds) tc amd b bs hl] at h
        exact (Option.some.inj h).symm

/-- Tables not touched by create_trigger_validation. -/
theorem create_tv_fixed (db : HrwsiDB) (data : List RawInput) (tc : String)
    (amd : Option Int) (db2 : HrwsiDB)
    (h : create_trigger_validation db data tc amd = some db2) :
    db2.raw_inputs = db.raw_inputs ∧ db2.wekeo_api_manager = db.wekeo_api_manager ∧
    db2.processing_tasks = db.processing_tasks := by
  rcases create_tv_shape db data tc amd db2 h with ⟨_, rfl⟩ | ⟨b, bs, _, rfl⟩ <;> exact ⟨rfl, rfl, rfl⟩

/-- Freshness of ids is preserved by create_trigger_validation. -/
theorem create_tv_ids_below (db : HrwsiDB) (data : List RawInput) (tc : String)
    (amd : Option Int) (db2 : HrwsiDB) (hwf : ids_below db)
    (h : create_trigger_validation db data tc amd = some db2) :
    ids_below db2 := by
  rcases create_tv_shape db data tc amd db2 h with ⟨_, rfl⟩ | ⟨b, bs, _, rfl⟩
  · exact hwf
  · constructor
    · intro tv htv
      simp only [List.mem_append, List.mem_singleton] at htv
      rcases htv with htv | rfl
      · exact Nat.lt_succ_of_lt (hwf.1 tv htv)
      · exact Nat.lt_succ_self _
    · intro e he
      simp only [List.mem_append, List.mem_map] at he
      rcases he with he | ⟨r, _, rfl⟩
      · exact Nat.lt_succ_of_lt (hwf.2 e he)
      · exact Nat.lt_succ_self _

/-- New raw2valid edges produced by create_trigger_validation only
reference the bundled inputs. -/
theorem create_tv_r2v_new (db : HrwsiDB) (data : List RawInput) (tc : String)
    (amd : Option Int) (db2 : HrwsiDB)
    (h : create_trigger_validation db data tc amd = some db2) :
    ∀ e ∈ db2.raw2valid, e ∈ db.raw2valid ∨ ∃ r ∈ data, e.raw_input_id = r.id := by
  rcases create_tv_shape db data tc amd db2 h with ⟨_, rfl⟩ | ⟨b, bs, _, rfl⟩
  · intro e he
    exact Or.inl he
  · intro e he
    simp only [List.mem_append, List.mem_map] at he
    rcases he with he | ⟨r, hr, rfl⟩
    · exact Or.inl he
    · exact Or.inr ⟨r, hr, rfl⟩

/-- How create_trigger_validation changes the per-(input, rule)
validation multiplicity: the count grows by one exactly for the
created rule and the bundled inputs, and is unchanged everywhere
else. -/
theorem tv_count_create (db : HrwsiDB) (data : List RawInput) (tc : String)
    (amd : Option Int) (db2 : HrwsiDB) (hwf : ids_below db)
    (h : create_trigger_validation db data tc amd = some db2) (rid tc0 : String) :
    tv_count_for db2 rid tc0 =
      tv_count_for db rid tc0 +
        (if tc0 = tc ∧ rid ∈ data.map RawInput.id then 1 else 0) := by
  rcases create_tv_shape db data tc amd db2 h with ⟨rfl, rfl⟩ | ⟨b, bs, _, rfl⟩
  · simp
  · unfold tv_count_for
    simp only [List.filter_append, List.length_append]
    have hedge_old : ∀ t ∈ db.trigger_validation,
        has_edge
          { db with
            trigger_validation := db.trigger_validation ++
              [{ id := db.next_tv_id, triggering_condition_name := tc,
                 is_nrt := b, artificial_measurement_day := amd }],
            raw2valid := db.raw2valid ++ data.map (fun r =>
              { trigger_validation_id := db.next_tv_id, raw_input_id := r.id }),
            next_tv_id := db.next_tv_id + 1 } t.id rid = has_edge db t.id rid := by
      intro t ht
      unfold has_edge
      simp only [List.any_append]
      have hnew : (data.map (fun r =>
          ({ trigger_validation_id := db.next_tv_id, raw_input_id := r.id } : Raw2Valid))).any
            (fun e => decide (e.trigger_validation_id = t.id) && decide (e.raw_input_id = rid)) = false := by
        rw [List.any_eq_false]
        intro e he
        simp only [List.mem_map] at he
        obtain ⟨r, _, rfl⟩ := he
        have : db.next_tv_id ≠ t.id := Nat.ne_of_gt (hwf.1 t ht)
        simp [this]
      rw [hnew]
      simp
    have hfil : (db.trigger_validation.filter (fun tv =>
          decide (tv.triggering_condition_name = tc0) && has_edge
            { db with
              trigger_validation := db.trigger_validation ++
                [{ id := db.next_tv_id, triggering_condition_name := tc,
                   is_nrt := b, artificial_measurement_day := amd }],
              raw2valid := db.raw2valid ++ data.map (fun r =>
                { trigger_validation_id := db.next_tv_id, raw_input_id := r.id }),
              next_tv_id := db.next_tv_id + 1 } tv.id rid)) =
        (db.trigger_validation.filter (fun tv =>
          decide (tv.triggering_condition_name = tc0) && has_edge db tv.id rid)) := by
      apply filter_congr_mem
      intro t ht
      rw [hedge_old t ht]
    rw [hfil]
    congr 1
    have hedge_new : has_edge
        { db with
          trigger_validation := db.trigger_validation ++
            [{ id := db.next_tv_id, triggering_condition_name := tc,
               is_nrt := b, artificial_measurement_day := amd }],
          raw2valid := db.raw2valid ++ data.map (fun r =>
            { trigger_validation_id := db.next_tv_id, raw_input_id := r.id }),
          next_tv_id := db.next_tv_id + 1 } db.next_tv_id rid =
        decide (rid ∈ data.map RawInput.id) := by
      unfold has_edge
      simp only [List.any_append]
      have hold : db.raw2valid.any (fun e =>
          decide (e.trigger_validation_id = db.next_tv_id) && decide (e.raw_input_id = rid)) = false := by
        rw [List.any_eq_false]
        intro e he
        have : e.trigger_validation_id ≠ db.next_tv_id := Nat.ne_of_lt (hwf.2 e he)
        simp [this]
      rw [hold]
      simp only [Bool.false_or]
      by_cases hmem : rid ∈ data.map RawInput.id
      · have hmem2 := hmem
        simp only [List.mem_map] at hmem2
        obtain ⟨r, hr, hrid⟩ := hmem2
        have htrue : ((data.map (fun r =>
            ({ trigger_validation_id := db.next_tv_id, raw_input_id := r.id } : Raw2Valid))).any
              (fun e => decide (e.trigger_validation_id = db.next_tv_id) &&
                decide (e.raw_input_id = rid))) = true := by
          rw [List.any_eq_true]
          exact ⟨{ trigger_validation_id := db.next_tv_id, raw_input_id := r.id },
            List.mem_map.mpr ⟨r, hr, rfl⟩, by simp [hrid]⟩
        rw [htrue]
        simp [hmem]
      · have hfalse : ((data.map (fun r =>
            ({ trigger_validation_id := db.next_tv_id, raw_input_id := r.id } : Raw2Valid))).any
              (fun e => decide (e.trigger_validation_id = db.next_tv_id) &&
                decide (e.raw_input_id = rid))) = false := by
          rw [List.any_eq_false]
          intro e he
          simp only [List.mem_map] at he
          obtain ⟨r, hr, rfl⟩ := he
          have : ¬ r.id = rid := fun hc => hmem (List.mem_map.mpr ⟨r, hr, hc⟩)
          simp [this]
        rw [hfalse]
        simp [hmem]
    simp only [List.filter_cons, List.filter_nil, hedge_new]
    by_cases hcond : tc0 = tc ∧ rid ∈ data.map RawInput.id
    · obtain ⟨h1, h2⟩ := hcond
      simp [h1, h2]
    · rw [if_neg hcond]
      rcases Classical.em (tc0 = tc) with h1 | h1
      · have h2 : ¬ rid ∈ data.map RawInput.id := fun hc => hcond ⟨h1, hc⟩
        simp [h1, h2]
      · have : ¬ tc = tc0 := fun hc => h1 hc.symm
        simp [this]

/- ------------------------------------------------------------------
   Claim C8: atomicity of validation creation.
   The Triggerer runs its insert connection in
   ISOLATION_LEVEL_AUTOCOMMIT (Triggerer.create_loop,
   gfsc_daily_tasks, wics1s2_daily_tasks), so INSERT_TRIGGER_VALIDATION
   and the INSERT_RAW2VALID batch are separate transactions; a state
   in which only a prefix of the statement list has executed is
   reachable (execution stopping between the statements).
   ------------------------------------------------------------------ -/

/-- Does the store contain a trigger_validation with zero raw2valid
edges? -/
def has_tv_without_edges (db : HrwsiDB) : Bool :=
  db.trigger_validation.any (fun tv =>
    ! db.raw2valid.any (fun e => decide (e.trigger_validation_id = tv.id)))

def empty_db : HrwsiDB :=
  { raw_inputs := [], trigger_validation := [], raw2valid := [], processing_tasks := [],
    nomad_job_dispatch := [], processingtask2nomad := [], processing_status_workflow := [],
    triggering_condition := [], processing_routine := [], products := [],
    wekeo_api_manager := [], next_tv_id := 1, next_pt_id := 1 }

def c8_raw : RawInput :=
  { id := "L2A-1", product_type_code := "S2_MAJA_L2A", start_date := 0,
    publishing_date := some 100, tile := "31TCH", measurement_day := 20250301,
    relative_orbit_number := none, input_path := "p", isPartial := false,
    harvesting_date := 200 }

def c8_db : HrwsiDB := { empty_db with raw_inputs := [c8_raw] }

/-- C8 counterexample: the claim says no reachable database state
contains a trigger_validation with zero raw2valid edges.  Starting
from a clean store, stopping create_trigger_validation after its first
autocommitted statement (the validation insert, before the edge
insert) reaches exactly such a state, so the claim as stated is
false. -/
theorem create_tv_not_atomic :
    (create_trigger_validation_ops c8_db [c8_raw] "FSC_TC" none).map
      (fun ws => has_tv_without_edges (apply_writes c8_db (ws.take 1))) = some true ∧
    has_tv_without_edges c8_db = false := by
  constructor <;> rfl

/-- C8 (amended): the validation row and its raw2valid edges are
written by separate autocommitted statements, so stopping between them
leaves a validation with zero edges; but whenever
create_trigger_validation runs to completion, a store without
edge-less validations stays without edge-less validations (every
validation it creates receives at least one edge in the same call). -/
theorem create_tv_complete_run_no_orphan (db : HrwsiDB) (data : List RawInput)
    (tc : String) (amd : Option Int) (ws : List DbWrite)
    (hops : create_trigger_validation_ops db data tc amd = some ws)
    (hclean : has_tv_without_edges db = false) :
    has_tv_without_edges (apply_writes db ws) = false := by
  have hcr : create_trigger_validation db data tc amd = some (apply_writes db ws) := by
    rw [create_trigger_validation, hops]
    rfl
  rcases create_tv_shape db data tc amd (apply_writes db ws) hcr with ⟨_, heq⟩ | ⟨b, bs, hl, heq⟩
  · rw [heq]
    exact hclean
  · rw [heq]
    unfold has_tv_without_edges
    rw [List.any_eq_false]
    intro tv htv
    simp only [List.mem_append, List.mem_singleton] at htv
    unfold has_tv_without_edges at hclean
    rw [List.any_eq_false] at hclean
    rcases htv with htv | rfl
    · have hold := hclean tv htv
      have holdany : db.raw2valid.any (fun e => decide (e.trigger_validation_id = tv.id)) = true := by
        rcases Bool.eq_false_or_eq_true
          (db.raw2valid.any fun e => decide (e.trigger_validation_id = tv.id)) with ht | hf
        · exact ht
        · exact absurd (by rw [hf]; rfl) hold
      simp only [List.any_append, holdany, Bool.true_or]
      simp
    · cases data with
      | nil =>
        have hlen := input_is_nrt_list_nil_iff db [] (b :: bs) hl
        simp at hlen
      | cons d ds =>
        have hmem : ({ trigger_validation_id := db.next_tv_id, raw_input_id := d.id } : Raw2Valid) ∈
            (d :: ds).map (fun r =>
              ({ trigger_validation_id := db.next_tv_id, raw_input_id := r.id } : Raw2Valid)) :=
          List.mem_map.mpr ⟨d, by simp, rfl⟩
        have hany : ((d :: ds).map (fun r =>
            ({ trigger_validation_id := db.next_tv_id, raw_input_id := r.id } : Raw2Valid))).any
              (fun e => decide (e.trigger_validation_id = db.next_tv_id)) = true :=
          List.any_eq_true.mpr ⟨_, hmem, by simp⟩
        simp only [List.any_append, hany, Bool.or_true]
        simp

/-- Witness for `create_tv_complete_run_no_orphan` at the concrete
C8 store. -/
theorem create_tv_complete_run_no_orphan_witness :
    has_tv_without_edges (apply_writes c8_db
      [DbWrite.insTV
         { id := 1, triggering_condition_name := "FSC_TC",
           is_nrt := true, artificial_measurement_day := none },
       DbWrite.insR2V { trigger_validation_id := 1, raw_input_id := "L2A-1" }]) = false :=
  create_tv_complete_run_no_orphan c8_db [c8_raw] "FSC_TC" none _ (by decide) (by decide)

/- ------------------------------------------------------------------
   Claim C7: the NRT flag of a raw input bundled by
   create_trigger_validation.
   ------------------------------------------------------------------ -/

/-- The publishing-window formula of IS_NRT_FROM_NOW_HARVEST_DATE_REQ:
`harvesting_date BETWEEN publishing_date AND publishing_date + 3 h`
with a NULL publishing date classified as not NRT. -/
def nrt_window_formula (r : RawInput) : Bool :=
  match r.publishing_date with
  | some p => decide (p ≤ r.harvesting_date) && decide (r.harvesting_date ≤ p + 10800)
  | none => false

/-- Modelled from the claim (C7) wording: `is_nrt` is true iff — when
a past `nrt_harvest_start_date` bookmark exists for the input's
product type — the input's measurement_day is greater than or equal to
the bookmark, and otherwise iff
publishing_date ≤ harvesting_date ≤ publishing_date + 3 hours. -/
def claimed_is_nrt (db : HrwsiDB) (r : RawInput) : Bool :=
  match db.wekeo_api_manager.find? (fun w => decide (w.input_type = r.product_type_code)) with
  | some w =>
    match w.nrt_harvest_start_date with
    | some bm => decide (r.measurement_day ≥ bm)
    | none => nrt_window_formula r
  | none => nrt_window_formula r

/-- C7 as amended: the bookmark branch of the NRT computation is only
reachable for product types `S2MSI1C` and `IW_GRDH_1S` (and only for a
truthy, i.e. nonzero, bookmark); every other product type always goes
through the 3-hour publishing window formula. -/
def amended_is_nrt (db : HrwsiDB) (r : RawInput) : Bool :=
  if r.product_type_code = "S2MSI1C" ∨ r.product_type_code = "IW_GRDH_1S" then
    match db.wekeo_api_manager.find? (fun w => decide (w.input_type = r.product_type_code)) with
    | some w =>
      match w.nrt_harvest_start_date with
      | some bm => if bm ≠ 0 then decide (r.measurement_day ≥ bm) else nrt_window_formula r
      | none => nrt_window_formula r
    | none => nrt_window_formula r
  else nrt_window_formula r

def c7_wekeo : WekeoConfigRow :=
  { triggering_condition_name := "FSC_TC", input_type := "S2_MAJA_L2A",
    max_day_since_publication_date := 7, max_day_since_measurement_date := 30,
    timeliness := none, nrt_harvest_start_date := some 20240101 }

def c7_raw : RawInput :=
  { id := "L2A-77", product_type_code := "S2_MAJA_L2A", start_date := 0,
    publishing_date := some 0, tile := "31TCH", measurement_day := 20250101,
    relative_orbit_number := none, input_path := "p", isPartial := false,
    harvesting_date := 20000 }

def c7_db : HrwsiDB :=
  { empty_db with raw_inputs := [c7_raw], wekeo_api_manager := [c7_wekeo] }

/-- C7 counterexample: a `S2_MAJA_L2A` raw input whose product type
does carry a past `nrt_harvest_start_date` bookmark (20240101) and
whose measurement_day (20250101) reaches the bookmark, but which was
harvested more than 3 hours after publication.  The claim says
`is_nrt = true` (bookmark branch); the code never consults the
bookmark for this product type (get_nrt_harvesting_date only queries
it for `S2MSI1C` and `IW_GRDH_1S`) and computes `is_nrt = false` from
the 3-hour window. -/
theorem nrt_flag_bookmark_counterexample :
    input_is_nrt c7_db c7_raw = some false ∧ claimed_is_nrt c7_db c7_raw = true := by
  constructor <;> rfl

/-- C7 (amended): for a raw input stored in the database, the NRT flag
computed by get_nrt_harvesting_date + is_raw_input_nrt equals the
amended policy: bookmark comparison only for product types `S2MSI1C`
and `IW_GRDH_1S` with a nonzero bookmark, 3-hour publishing window
otherwise.  The hypothesis `hw` excludes the configuration-row-missing
crash of `fetchone()[...]`. -/
theorem nrt_flag_amended (db : HrwsiDB) (r : RawInput)
    (hfind : db.raw_inputs.find? (fun x => decide (x.id = r.id)) = some r)
    (hw : (r.product_type_code = "S2MSI1C" ∨ r.product_type_code = "IW_GRDH_1S") →
      (db.wekeo_api_manager.find? (fun w =>
        decide (w.input_type = r.product_type_code))).isSome) :
    input_is_nrt db r = some (amended_is_nrt db r) := by
  unfold input_is_nrt get_nrt_harvesting_date amended_is_nrt
  by_cases hsp : r.product_type_code = "S2MSI1C" ∨ r.product_type_code = "IW_GRDH_1S"
  · rw [if_pos hsp]
    obtain ⟨w, hwfind⟩ := Option.isSome_iff_exists.mp (hw hsp)
    rw [hwfind]
    simp only [Option.map_some', Option.bind_eq_bind, Option.some_bind, if_pos hsp]
    cases hbm : w.nrt_harvest_start_date with
    | none =>
      simp only [Option.getD_none]
      unfold is_raw_input_nrt
      rw [hfind]
      simp only [Option.map_some']
      congr 1
    | some bm =>
      simp only [Option.getD_some]
      unfold is_raw_input_nrt
      rw [hfind]
      simp only [Option.map_some']
      congr 1
  · rw [if_neg hsp, if_neg hsp]
    simp only [Option.bind_eq_bind, Option.some_bind]
    unfold is_raw_input_nrt
    rw [hfind]
    simp only [Option.map_some']
    congr 1

def c7w_wekeo : WekeoConfigRow :=
  { triggering_condition_name := "Backscatter_10m_TC", input_type := "IW_GRDH_1S",
    max_day_since_publication_date := 7, max_day_since_measurement_date := 30,
    timeliness := some "NRT-3h", nrt_harvest_start_date := some 20240101 }

def c7w_raw : RawInput :=
  { id := "GRD-77", product_type_code := "IW_GRDH_1S", start_date := 0,
    publishing_date := some 0, tile := "31TCH", measurement_day := 20250101,
    relative_orbit_number := some 8, input_path := "p", isPartial := true,
    harvesting_date := 20000 }

def c7w_db : HrwsiDB :=
  { empty_db with raw_inputs := [c7w_raw], wekeo_api_manager := [c7w_wekeo] }

/-- Witness for `nrt_flag_amended` on an `IW_GRDH_1S` input with a
bookmark (the branch where the code does consult it). -/
theorem nrt_flag_amended_witness :
    input_is_nrt c7w_db c7w_raw = some (amended_is_nrt c7w_db c7w_raw) :=
  nrt_flag_amended c7w_db c7w_raw (by decide) (by decide)

/- ------------------------------------------------------------------
   Claim C2: the Orchestrator creates at most one processing task per
   trigger validation (NrtDailyOrchestrator.create_processing_task).
   ------------------------------------------------------------------ -/

/-- PT_ALREADY_IN_DATABASE_REQUEST: rows of processing_tasks
referencing the validation (the Python only tests emptiness of
`fetchone()`). -/
def pt_already_in_database (db : HrwsiDB) (tvid : Nat) : Bool :=
  db.processing_tasks.any (fun pt => decide (pt.trigger_validation_fk_id = tvid))

/-- GET_PROCESSING_DATE_GFSC_PT: the triggering-condition name and
artificial_measurement_day of validation `tvid`, provided a raw2valid
edge links it to raw input `rid` and the raw_inputs row exists.
`none` models the TypeError of subscripting an absent `fetchone()`. -/
def get_processing_date_gfsc_pt (db : HrwsiDB) (rid : String) (tvid : Nat) :
    Option (String × Option Int) :=
  (db.trigger_validation.find? (fun tv => decide (tv.id = tvid))).bind (fun tv =>
    if db.raw2valid.any (fun e =>
          decide (e.trigger_validation_id = tvid) && decide (e.raw_input_id = rid)) &&
        db.raw_inputs.any (fun x => decide (x.id = rid)) then
      some (tv.triggering_condition_name, tv.artificial_measurement_day)
    else none)

/-- ADD_PROCESSING_TASK_REQUEST under the unique constraint on
trigger_validation_fk_id: a conflicting concurrent insert raises
UniqueViolation, which create_processing_task catches and logs,
leaving the store unchanged. -/
def insert_processing_task (db : HrwsiDB) (tvid : Nat) (now : Int)
    (processing_date : Option Int) : HrwsiDB :=
  if db.processing_tasks.any (fun pt => decide (pt.trigger_validation_fk_id = tvid)) then db
  else
    { db with
      processing_tasks := db.processing_tasks ++
        [{ id := db.next_pt_id, trigger_validation_fk_id := tvid, creation_date := now,
           has_ended := false, processing_date := processing_date }],
      next_pt_id := db.next_pt_id + 1 }

/-- NrtDailyOrchestrator.create_processing_task: probe
PT_ALREADY_IN_DATABASE_REQUEST; if a task exists, log and pass;
otherwise read the validation's triggering condition and insert one
row `(trigger_validation_fk_id, now, has_ended := false,
processing_date)` where processing_date is the validation's
artificial_measurement_day for GFSC_TC and NULL otherwise. -/
def create_processing_task (db : HrwsiDB) (rid : String) (tvid : Nat) (now : Int) :
    Option HrwsiDB :=
  if pt_already_in_database db tvid then some db
  else
    (get_processing_date_gfsc_pt db rid tvid).map (fun res =>
      insert_processing_task db tvid now (if res.1 = "GFSC_TC" then res.2 else none))

/-- Number of processing_tasks rows referencing validation `v`. -/
def pt_count_for (db : HrwsiDB) (v : Nat) : Nat :=
  (db.processing_tasks.filter (fun pt => decide (pt.trigger_validation_fk_id = v))).length

/-- C2: for every trigger validation the Orchestrator creates at most
one processing task.  (a) When a task already references the
validation nothing is inserted; (b) otherwise exactly one row
`(validation, now, has_ended = false, processing_date)` is appended,
with processing_date equal to the validation's
artificial_measurement_day exactly when its triggering condition is
GFSC_TC and NULL otherwise; (c) a unique-constraint violation from a
concurrent insert leaves the store unchanged; (d) the at-most-one
tasks-per-validation invariant is preserved. -/
theorem orchestrator_creates_at_most_one_task (db : HrwsiDB) (rid : String)
    (tvid : Nat) (now : Int) :
    (pt_already_in_database db tvid = true →
      create_processing_task db rid tvid now = some db) ∧
    (∀ tcname amd, pt_already_in_database db tvid = false →
      get_processing_date_gfsc_pt db rid tvid = some (tcname, amd) →
      create_processing_task db rid tvid now = some
        { db with
          processing_tasks := db.processing_tasks ++
            [{ id := db.next_pt_id, trigger_validation_fk_id := tvid, creation_date := now,
               has_ended := false,
               processing_date := if tcname = "GFSC_TC" then amd else none }],
          next_pt_id := db.next_pt_id + 1 }) ∧
    (∀ pd, pt_already_in_database db tvid = true →
      insert_processing_task db tvid now pd = db) ∧
    (∀ db2, create_processing_task db rid tvid now = some db2 →
      ∀ v, pt_count_for db v ≤ 1 → pt_count_for db2 v ≤ 1) := by
  refine ⟨?_, ?_, ?_, ?_⟩
  · intro h
    unfold create_processing_task
    rw [if_pos h]
  · intro tcname amd hprobe hget
    unfold create_processing_task
    rw [if_neg (by rw [hprobe]; simp), hget]
    simp only [Option.map_some']
    unfold insert_processing_task
    unfold pt_already_in_database at hprobe
    rw [if_neg (by rw [hprobe]; simp)]
  · intro pd h
    unfold insert_processing_task
    unfold pt_already_in_database at h
    rw [if_pos h]
  · intro db2 hrun v hv
    unfold create_processing_task at hrun
    by_cases hprobe : pt_already_in_database db tvid = true
    · rw [if_pos hprobe] at hrun
      obtain rfl : db = db2 := Option.some.inj hrun
      exact hv
    · rw [if_neg hprobe] at hrun
      cases hget : get_processing_date_gfsc_pt db rid tvid with
      | none => rw [hget] at hrun; simp at hrun
      | some res =>
        rw [hget] at hrun
        simp only [Option.map_some'] at hrun
        obtain rfl := Option.some.inj hrun
        unfold insert_processing_task
        have hprobe2 : db.processing_tasks.any
            (fun pt => decide (pt.trigger_validation_fk_id = tvid)) = false := by
          rcases Bool.eq_false_or_eq_true (db.processing_tasks.any
            (fun pt => decide (pt.trigger_validation_fk_id = tvid))) with ht | hf
          · exact absurd ht hprobe
          · exact hf
        rw [if_neg (by rw [hprobe2]; simp)]
        unfold pt_count_for
        rw [List.filter_append]
        simp only [List.length_append]
        by_cases hveq : tvid = v
        · subst hveq
          have hzero : (db.processing_tasks.filter
              (fun pt => decide (pt.trigger_validation_fk_id = tvid))).length = 0 := by
            rw [List.length_eq_zero, List.filter_eq_nil_iff]
            intro pt hpt
            intro hc
            have : db.processing_tasks.any
                (fun pt => decide (pt.trigger_validation_fk_id = tvid)) = true :=
              List.any_eq_true.mpr ⟨pt, hpt, hc⟩
            rw [hprobe2] at this
            exact absurd this (by simp)
          unfold pt_count_for at hzero
          rw [hzero]
          simp
        · unfold pt_count_for at hv
          simp only [List.filter_cons, List.filter_nil]
          rw [if_neg (by simp [hveq])]
          simpa using hv

/-- Witness for `orchestrator_creates_at_most_one_task` at a concrete
GFSC validation. -/
theorem orchestrator_creates_at_most_one_task_witness :
    let db : HrwsiDB :=
      { empty_db with
        raw_inputs := [c8_raw],
        trigger_validation :=
          [{ id := 3, triggering_condition_name := "GFSC_TC",
             is_nrt := false, artificial_measurement_day := some 20250301 }],
        raw2valid := [{ trigger_validation_id := 3, raw_input_id := "L2A-1" }],
        next_tv_id := 4 }
    create_processing_task db "L2A-1" 3 500 = some
      { db with
        processing_tasks :=
          [{ id := 1, trigger_validation_fk_id := 3, creation_date := 500,
             has_ended := false, processing_date := some 20250301 }],
        next_pt_id := 2 } := by
  intro db
  have h := (orchestrator_creates_at_most_one_task db "L2A-1" 3 500).2.1
    "GFSC_TC" (some 20250301) (by decide) (by decide)
  simpa using h

/- ------------------------------------------------------------------
   Claim C9: the Harvester's NRT catalog query window
   (Harvester.harvest_input, non-past-recovery branch).
   ------------------------------------------------------------------ -/

/-- GET_LAST_PUBLISHING_DATE_INPUT: `SELECT publishing_date FROM
raw_inputs WHERE product_type_code = t ORDER BY start_date DESC
LIMIT 1` — note the ordering is on start_date, not publishing_date.
A tie on start_date (order unspecified in SQL) is resolved towards the
earlier stored row. -/
def select_last_by_start_date (rs : List RawInput) : Option RawInput :=
  rs.foldl (fun acc r =>
    match acc with
    | none => some r
    | some a => if r.start_date > a.start_date then some r else acc) none

def get_last_publishing_date_input (raw_inputs : List RawInput) (input_type : String) :
    Option RawInput :=
  select_last_by_start_date
    (raw_inputs.filter (fun r => decide (r.product_type_code = input_type)))

/-- Harvester.harvest_input, NRT mode without past recovery: the
min/max publication dates passed to the catalog client.  The fetched
publishing date is used only when a row exists *and* the rule has no
timeliness; it is then clamped from below by
`now − max_day_since_publication_date` (day counts scaled to
seconds).  `none` models `pytz.utc.localize(None)` raising on a row
with NULL publishing_date. -/
def nrt_window (raw_inputs : List RawInput) (pc : WekeoConfigRow) (now : Int) :
    Option (Int × Int) :=
  let floor := now - pc.max_day_since_publication_date * 86400
  match get_last_publishing_date_input raw_inputs pc.input_type, pc.timeliness with
  | some row, none =>
    (match row.publishing_date with
     | some p => some (if floor > p then floor else p, now)
     | none => none)
  | _, _ => some (floor, now)

/-- Modelled from the claim (C9) wording: the lower bound equals the
latest publishing_date present in raw_inputs for the rule's product
type, or now − max_day_since_publication_date when no such row
exists; the upper bound equals now. -/
def claimed_nrt_window (raw_inputs : List RawInput) (pc : WekeoConfigRow) (now : Int) :
    Int × Int :=
  let pubs := (raw_inputs.filter (fun r =>
    decide (r.product_type_code = pc.input_type))).filterMap (fun r => r.publishing_date)
  match pubs.foldl (fun acc p =>
    match acc with
    | none => some p
    | some a => if p > a then some p else some a) none with
  | some m => (m, now)
  | none => (now - pc.max_day_since_publication_date * 86400, now)

def c9_rowA : RawInput :=
  { id := "A", product_type_code := "P", start_date := 100, publishing_date := some 50,
    tile := "31TCH", measurement_day := 20250301, relative_orbit_number := none,
    input_path := "a", isPartial := false, harvesting_date := 0 }

def c9_rowB : RawInput :=
  { id := "B", product_type_code := "P", start_date := 90, publishing_date := some 95,
    tile := "31TCH", measurement_day := 20250301, relative_orbit_number := none,
    input_path := "b", isPartial := false, harvesting_date := 0 }

def c9_pc : WekeoConfigRow :=
  { triggering_condition_name := "T", input_type := "P",
    max_day_since_publication_date := 30, max_day_since_measurement_date := 30,
    timeliness := none, nrt_harvest_start_date := none }

/-- C9 counterexample: with two stored rows (A: start_date 100,
publishing_date 50; B: start_date 90, publishing_date 95) the latest
publishing_date present is 95, but the code's window query orders by
start_date and therefore takes row A's publishing_date 50 as the lower
bound, so the claim's window differs from the computed one. -/
theorem nrt_window_counterexample :
    nrt_window [c9_rowA, c9_rowB] c9_pc 60 = some (50, 60) ∧
    claimed_nrt_window [c9_rowA, c9_rowB] c9_pc 60 = (95, 60) ∧
    nrt_window [c9_rowA, c9_rowB] c9_pc 60 ≠
      some (claimed_nrt_window [c9_rowA, c9_rowB] c9_pc 60) := by
  refine ⟨rfl, rfl, by decide⟩

/-- C9 as amended: in NRT mode the lower bound equals the
publishing_date of the raw_inputs row with the latest start_date for
the rule's product type — used only when such a row exists and the
rule has no timeliness, and clamped from below by
now − max_day_since_publication_date; in every other case the lower
bound is now − max_day_since_publication_date.  The upper bound always
equals now, and the lower bound never drops below the clamp. -/
def amended_nrt_window (raw_inputs : List RawInput) (pc : WekeoConfigRow) (now : Int) :
    Option (Int × Int) :=
  let floor := now - pc.max_day_since_publication_date * 86400
  match get_last_publishing_date_input raw_inputs pc.input_type, pc.timeliness with
  | some row, none => row.publishing_date.map (fun p => (max floor p, now))
  | _, _ => some (floor, now)

theorem nrt_window_amended (raw_inputs : List RawInput) (pc : WekeoConfigRow) (now : Int) :
    nrt_window raw_inputs pc now = amended_nrt_window raw_inputs pc now ∧
    (∀ lo hi, nrt_window raw_inputs pc now = some (lo, hi) →
      hi = now ∧ now - pc.max_day_since_publication_date * 86400 ≤ lo) := by
  simp only [nrt_window, amended_nrt_window]
  constructor
  · split
    · rename_i row hrow ht
      cases hp : row.publishing_date with
      | none => rfl
      | some p =>
        simp only [Option.map_some']
        congr 1
        rw [Prod.mk.injEq]
        refine ⟨?_, rfl⟩
        by_cases hc : p < now - pc.max_day_since_publication_date * 86400
        · rw [if_pos hc]
          rw [max_eq_left (by omega)]
        · rw [if_neg hc]
          rw [max_eq_right (by omega)]
    · rfl
  · intro lo hi h
    split at h
    · split at h
      · rename_i p hp
        have h' := Option.some.inj h
        rw [Prod.mk.injEq] at h'
        obtain ⟨h1, h2⟩ := h'
        refine ⟨h2.symm, ?_⟩
        split at h1 <;> omega
      · simp at h
    · have h' := Option.some.inj h
      rw [Prod.mk.injEq] at h'
      obtain ⟨h1, h2⟩ := h'
      exact ⟨h2.symm, by omega⟩

/-- Witness for `nrt_window_amended` at the concrete C9 store. -/
theorem nrt_window_amended_witness :
    nrt_window [c9_rowA, c9_rowB] c9_pc 60 =
      amended_nrt_window [c9_rowA, c9_rowB] c9_pc 60 ∧
    ((60 : Int) = 60 ∧ (60 : Int) - 30 * 86400 ≤ 50) :=
  ⟨(nrt_window_amended [c9_rowA, c9_rowB] c9_pc 60).1,
   (nrt_window_amended [c9_rowA, c9_rowB] c9_pc 60).2 50 60 (by decide)⟩

/- ------------------------------------------------------------------
   Claim C4: the NRT Launcher's lost-job sweeper
   (NRTLauncher.handle_lost_pt and the GET_UNFINISHED_* requests).
   ------------------------------------------------------------------ -/

/-- The column tuple selected by GET_UNFINISHED_PT_REQUEST,
GET_UNFINISHED_WITH_CALLBACK_PT_REQUEST and
GET_UNFINISHED_PT_WITH_EXIT_CODE (the Python builds sets of these row
tuples; identical joins produce identical tuples since no
psw/raw-input column is selected). -/
structure UnfinishedPtRow where
  pt_id : Nat
  trigger_validation_fk_id : Nat
  creation_date : Int
  processing_date : Option Int
  has_ended : Bool
  flavour : String
  dispatch_date : Int
  nomad_job_uuid : String
  duration : Int
deriving Repr, DecidableEq

/-- GET_UNFINISHED_PT_REQUEST: unfinished dispatched tasks of a
flavour with measurement_day ≥ 20250115, one row per join
combination. -/
def launcher_pt_rows (db : HrwsiDB) (flavour : String) : List UnfinishedPtRow :=
  db.processing_tasks.flatMap (fun pt =>
    if pt.has_ended then [] else
    db.trigger_validation.flatMap (fun tv =>
      if decide (tv.id = pt.trigger_validation_fk_id) then
        db.raw2valid.flatMap (fun e =>
          if decide (e.trigger_validation_id = tv.id) then
            db.raw_inputs.flatMap (fun ri =>
              if decide (ri.id = e.raw_input_id) && decide (ri.measurement_day ≥ 20250115) then
                db.triggering_condition.flatMap (fun tc =>
                  if decide (tc.name = tv.triggering_condition_name) then
                    db.processing_routine.flatMap (fun pr =>
                      if decide (pr.name = tc.processing_routine_name) &&
                          decide (pr.flavour = flavour) then
                        db.processingtask2nomad.flatMap (fun pn =>
                          if decide (pn.processing_task_id = pt.id) then
                            db.nomad_job_dispatch.flatMap (fun njd =>
                              if decide (njd.id = pn.nomad_job_id) then
                                [{ pt_id := pt.id,
                                   trigger_validation_fk_id := pt.trigger_validation_fk_id,
                                   creation_date := pt.creation_date,
                                   processing_date := pt.processing_date,
                                   has_ended := pt.has_ended,
                                   flavour := pr.flavour,
                                   dispatch_date := njd.dispatch_date,
                                   nomad_job_uuid := njd.id,
                                   duration := pr.duration }]
                              else [])
                          else [])
                      else [])
                  else [])
              else [])
          else [])
      else []))

/-- GET_UNFINISHED_WITH_CALLBACK_PT_REQUEST: the same join with the
additional INNER JOIN on processing_status_workflow (any status row
for the dispatch); as a row set this is the base rows whose dispatch
has at least one status row. -/
def launcher_pt_rows_with_callback (db : HrwsiDB) (flavour : String) : List UnfinishedPtRow :=
  (launcher_pt_rows db flavour).filter (fun r =>
    db.processing_status_workflow.any (fun s =>
      decide (s.nomad_job_dispatch_fk_id = r.nomad_job_uuid)))

/-- GET_UNFINISHED_PT_WITH_EXIT_CODE: same join restricted to status
rows carrying an exit code — with the flavour hard-coded to
`'eo1.large'` in the SQL text (the `.format(self.flavour)` call has no
placeholder to fill). -/
def launcher_pt_rows_with_exit_code (db : HrwsiDB) : List UnfinishedPtRow :=
  (launcher_pt_rows db "eo1.large").filter (fun r =>
    db.processing_status_workflow.any (fun s =>
      decide (s.nomad_job_dispatch_fk_id = r.nomad_job_uuid) && s.exit_code.isSome))

/-- One sweep iteration of NRTLauncher.handle_lost_pt: the rows the
INSERT_PROCESSING_STATUS_WORKFLOW statements append.
`dispatch_duration` models get_job_dispatch_duration (None when the
scheduler has no record; Python treats a 0.0 duration as falsy, hence
the `d = 0` disjunct).  The branch `if lost_pt in
unfinished_pt_without_exit_code_list` is tested first, exactly as in
the code. -/
def handle_lost_pt_sweep (db : HrwsiDB) (flavour : String)
    (internal_error_status_id : Int) (dispatch_duration : String → Option Int)
    (now : Int) : List ProcessingStatusWorkflow :=
  let unfinished := (launcher_pt_rows db flavour).dedup
  let with_callback := (launcher_pt_rows_with_callback db flavour).dedup
  let without_callback := unfinished.filter (fun r => ! decide (r ∈ with_callback))
  let with_exit := (launcher_pt_rows_with_exit_code db).dedup
  let without_exit := unfinished.filter (fun r => ! decide (r ∈ with_exit))
  let lost := without_exit ++ without_callback.filter (fun r => ! decide (r ∈ without_exit))
  lost.filterMap (fun r =>
    let dur := dispatch_duration r.nomad_job_uuid
    let pr_duration_in_minutes := max 7 r.duration
    let relaunch_flag :=
      if decide (r ∈ without_exit) then
        match dur with
        | none => true
        | some d => decide (d = 0) || decide (d > 3 * 60 * pr_duration_in_minutes)
      else
        match dur with
        | none => true
        | some d => decide (d = 0) || decide (d > 3600)
    if relaunch_flag then
      some { nomad_job_dispatch_fk_id := r.nomad_job_uuid,
             processing_status_id := internal_error_status_id, date := now,
             exit_code := some 404 }
    else none)

def c4_routine : ProcessingRoutine :=
  { name := "cc_routine", product_type_code := "S2MSI1C", flavour := "eo1.large",
    duration := 30 }

def c4_raw : RawInput :=
  { id := "L1C-1", product_type_code := "S2MSI1C", start_date := 0,
    publishing_date := some 0, tile := "31TCH", measurement_day := 20250301,
    relative_orbit_number := none, input_path := "p", isPartial := false,
    harvesting_date := 0 }

def c4_db : HrwsiDB :=
  { empty_db with
    raw_inputs := [c4_raw],
    trigger_validation :=
      [{ id := 1, triggering_condition_name := "CC_TC",
         is_nrt := true, artificial_measurement_day := none }],
    raw2valid := [{ trigger_validation_id := 1, raw_input_id := "L1C-1" }],
    processing_tasks :=
      [{ id := 1, trigger_validation_fk_id := 1, creation_date := 0,
         has_ended := false, processing_date := none }],
    nomad_job_dispatch := [{ id := "u1", dispatch_date := 0 }],
    processingtask2nomad := [{ nomad_job_id := "u1", processing_task_id := 1 }],
    triggering_condition := [{ name := "CC_TC", processing_routine_name := "cc_routine" }],
    processing_routine := [c4_routine],
    next_tv_id := 2, next_pt_id := 2 }

def c4_sched (u : String) : Option Int := if u = "u1" then some 4200 else none

/-- C4 is a code bug.  The dispatch `u1` has no status row at all
(never pending nor started) and was dispatched 4200 s (70 min) ago, so
both the claim and the code's own comments ("1h for jobs without
callback", "priority to the jobs without callback") demand exactly one
internal_error/404 row.  But a dispatch with no status rows is always
also in the without-exit-code set, the code tests that set first, and
therefore applies the 3 × max(7, duration) × 60 threshold (here
5400 s): the sweep appends nothing.  The 1-hour branch is unreachable
for every dispatch that never reported any status.  (Independently,
GET_UNFINISHED_PT_WITH_EXIT_CODE hard-codes flavour 'eo1.large'.) -/
theorem lost_job_policy_code_bug :
    c4_sched "u1" = some 4200 ∧ (3600 : Int) < 4200 ∧
    c4_db.processing_status_workflow = [] ∧
    handle_lost_pt_sweep c4_db "eo1.large" 4 c4_sched 99999 = [] := by
  refine ⟨rfl, by decide, rfl, rfl⟩

/- ------------------------------------------------------------------
   Claim C1: rule-input idempotence.
   ------------------------------------------------------------------ -/

/-- Per-cycle constants the Triggerer derives from its configuration
and the wall clock (calculate_publication_and_measurement_deadlines
and the tile list file); the functions of type Int → Int model the
datetime arithmetic performed on stored values. -/
structure TriggererConfig where
  earliest_acceptable_publication_date : String → Int
  earliest_acceptable_measurement_date : String → Int
  tile_list : List String
  cc_gating_cutoff : Int
  measurement_day_minus_90_days : Int → Int
  date_of_timestamp : Int → Int

/-- Triggerer.validate_wics2_fsc_tc: one (rule, eligibility) pair per
rule in ['WICS2_TC', 'FSC_TC'].  Eligible iff the production
(harvesting) date reaches the per-rule deadline AND the NOT EXISTS
probe reports that no validation references the input under the
rule. -/
def validate_wics2_fsc_tc (db : HrwsiDB) (cfg : TriggererConfig)
    (notify_input : RawInput) : List (String × Bool) :=
  ["WICS2_TC", "FSC_TC"].map (fun tc =>
    (tc,
      if cfg.date_of_timestamp notify_input.harvesting_date ≥
          cfg.earliest_acceptable_publication_date tc then
        probe_no_validation_exists db notify_input.id tc
      else false))

/-- The 'S2_MAJA_L2A' branch of Triggerer.handle_triggering_condition:
validate both rules against the current store, then create one
trigger validation per eligible rule. -/
def handle_s2_maja_l2a (db : HrwsiDB) (cfg : TriggererConfig)
    (notify_input : RawInput) : Option HrwsiDB :=
  (validate_wics2_fsc_tc db cfg notify_input).foldlM
    (fun d (p : String × Bool) =>
      if p.2 then create_trigger_validation d [notify_input] p.1 none else some d) db

theorem if_prop_true {c : Prop} [Decidable c] {b : Bool}
    (h : (if c then b else false) = true) : b = true := by
  by_cases hc : c
  · rwa [if_pos hc] at h
  · rw [if_neg hc] at h
    exact absurd h (by simp)

/-- A step of the shape `if eligible then create one validation for
[x] under rule tcn`: the effect on every (input, rule) multiplicity. -/
theorem maybe_create_count (db d1 : HrwsiDB) (x : RawInput) (tcn : String) (b : Bool)
    (hwf : ids_below db)
    (h : (if b = true then create_trigger_validation db [x] tcn none else some db) = some d1) :
    ids_below d1 ∧
    ∀ rid tc, tv_count_for d1 rid tc =
      tv_count_for db rid tc + (if b = true ∧ tc = tcn ∧ rid = x.id then 1 else 0) := by
  by_cases hb : b = true
  · rw [if_pos hb] at h
    refine ⟨create_tv_ids_below db [x] tcn none d1 hwf h, ?_⟩
    intro rid tc
    have := tv_count_create db [x] tcn none d1 hwf h rid tc
    rw [this]
    congr 1
    simp only [List.map_cons, List.map_nil, List.mem_singleton]
    by_cases hcond : tc = tcn ∧ rid = x.id
    · rw [if_pos hcond, if_pos ⟨hb, hcond⟩]
    · rw [if_neg hcond, if_neg (fun hc => hcond ⟨hc.2.1, hc.2.2⟩)]
  · rw [if_neg hb] at h
    obtain rfl : db = d1 := Option.some.inj h
    refine ⟨hwf, ?_⟩
    intro rid tc
    rw [if_neg (fun hc => hb hc.1)]
    omega

/-- C1 (amended): for the probe-guarded rule evaluations — here the
S2_MAJA_L2A branch creating FSC_TC / WICS2_TC validations — the
at-most-one-validation-per-(input, rule) invariant is preserved:
every insert happens only when the NOT EXISTS probe over
trigger_validation ⋈ raw2valid reported no validation for the pair,
so evaluating the rules again for the same input never creates a
second validation for any (input, rule) pair. -/
theorem rule_input_idempotence_for_probed_rules (db db2 : HrwsiDB)
    (cfg : TriggererConfig) (x : RawInput)
    (hwf : ids_below db)
    (hinv : ∀ rid tc, tv_count_for db rid tc ≤ 1)
    (hrun : handle_s2_maja_l2a db cfg x = some db2) :
    ∀ rid tc, tv_count_for db2 rid tc ≤ 1 := by
  simp only [handle_s2_maja_l2a, validate_wics2_fsc_tc, List.map_cons, List.map_nil,
    List.foldlM_cons, List.foldlM_nil, Option.bind_eq_bind] at hrun
  obtain ⟨d1, h1, hrest⟩ := Option.bind_eq_some.mp hrun
  obtain ⟨d2, h2, hlast⟩ := Option.bind_eq_some.mp hrest
  have hd : d2 = db2 := Option.some.inj hlast
  subst hd
  have hm1 := maybe_create_count db d1 x "WICS2_TC" _ hwf h1
  have hm2 := maybe_create_count d1 d2 x "FSC_TC" _ hm1.1 h2
  intro rid tc
  have e1 := hm1.2 rid tc
  have e2 := hm2.2 rid tc
  rw [e2, e1]
  by_cases hA : (if cfg.date_of_timestamp x.harvesting_date ≥
      cfg.earliest_acceptable_publication_date "WICS2_TC" then
        probe_no_validation_exists db x.id "WICS2_TC" else false) = true ∧
      tc = "WICS2_TC" ∧ rid = x.id
  · rw [if_pos hA]
    have hzW : tv_count_for db rid tc = 0 := by
      rw [hA.2.1, hA.2.2]
      exact (probe_iff_count_zero db x.id "WICS2_TC").mp (if_prop_true hA.1)
    have hBzero : ¬ ((if cfg.date_of_timestamp x.harvesting_date ≥
        cfg.earliest_acceptable_publication_date "FSC_TC" then
          probe_no_validation_exists db x.id "FSC_TC" else false) = true ∧
        tc = "FSC_TC" ∧ rid = x.id) := by
      intro hc
      exact absurd (hA.2.1.symm.trans hc.2.1) (by decide)
    rw [if_neg hBzero, hzW]
  · rw [if_neg hA]
    by_cases hB : (if cfg.date_of_timestamp x.harvesting_date ≥
        cfg.earliest_acceptable_publication_date "FSC_TC" then
          probe_no_validation_exists db x.id "FSC_TC" else false) = true ∧
        tc = "FSC_TC" ∧ rid = x.id
    · rw [if_pos hB]
      have hzF : tv_count_for db rid tc = 0 := by
        rw [hB.2.1, hB.2.2]
        exact (probe_iff_count_zero db x.id "FSC_TC").mp (if_prop_true hB.1)
      rw [hzF]
    · rw [if_neg hB]
      have := hinv rid tc
      omega

def c1w_x : RawInput :=
  { id := "L2A-9", product_type_code := "S2_MAJA_L2A", start_date := 0,
    publishing_date := some 0, tile := "31TCH", measurement_day := 20250301,
    relative_orbit_number := none, input_path := "p", isPartial := false,
    harvesting_date := 100 }

def c1w_db : HrwsiDB := { empty_db with raw_inputs := [c1w_x] }

def c1w_cfg : TriggererConfig :=
  { earliest_acceptable_publication_date := fun _ => 0,
    earliest_acceptable_measurement_date := fun _ => 0,
    tile_list := ["31TCH"],
    cc_gating_cutoff := 0,
    measurement_day_minus_90_days := fun d => d - 90,
    date_of_timestamp := fun t => t }

/-- Witness for `rule_input_idempotence_for_probed_rules` at a
concrete store where both rules fire. -/
theorem rule_input_idempotence_for_probed_rules_witness :
    tv_count_for ((handle_s2_maja_l2a c1w_db c1w_cfg c1w_x).getD empty_db)
      "L2A-9" "FSC_TC" ≤ 1 :=
  rule_input_idempotence_for_probed_rules c1w_db
    ((handle_s2_maja_l2a c1w_db c1w_cfg c1w_x).getD empty_db) c1w_cfg c1w_x
    (by constructor <;> intro a ha <;> simp [c1w_db, empty_db] at ha)
    (by intro rid tc
        simp [tv_count_for, c1w_db, empty_db])
    (by rfl) "L2A-9" "FSC_TC"

/-- GET_WICS1S2_PAIRS_REQUEST: for each WICS1 raw input, the ids of
every WICS2 raw input sharing its tile and measurement_day (rows with
no partner are absent from the join). -/
def get_wics1s2_pairs (db : HrwsiDB) : List (String × Int × List String) :=
  db.raw_inputs.filterMap (fun a =>
    if a.product_type_code = "S1_WICS1_L2B" then
      let partners := (db.raw_inputs.filter (fun b =>
        decide (b.product_type_code = "S2_WICS2_L2B") && decide (b.tile = a.tile) &&
        decide (b.measurement_day = a.measurement_day))).map (fun b => b.id)
      if partners.isEmpty then none else some (a.id, a.measurement_day, partners)
    else none)

/-- Triggerer.wics1s2_daily_tasks: for each WICS1 with same-day WICS2
partners, probe only the WICS1 id under WICS1S2_TC; when the probe
passes, insert one validation (NRT iff measurement_day = today) and
collect raw2valid edges for the WICS1 and all its WICS2 partners.
Edges are inserted only after the loop, so in-loop probes see the new
validations without their edges. -/
def wics1s2_daily_tasks (db : HrwsiDB) (today_int : Int) : HrwsiDB :=
  let rows := get_wics1s2_pairs db
  let step := fun (st : HrwsiDB × List Raw2Valid) (row : String × Int × List String) =>
    let d := st.1
    if probe_no_validation_exists d row.1 "WICS1S2_TC" then
      let is_nrt := decide (row.2.1 = today_int)
      let tvId := d.next_tv_id
      let d2 := { d with
        trigger_validation := d.trigger_validation ++
          [{ id := tvId, triggering_condition_name := "WICS1S2_TC",
             is_nrt := is_nrt, artificial_measurement_day := none }],
        next_tv_id := tvId + 1 }
      (d2, st.2 ++ [{ trigger_validation_id := tvId, raw_input_id := row.1 }] ++
        row.2.2.map (fun w => { trigger_validation_id := tvId, raw_input_id := w }))
    else st
  let res := rows.foldl step (db, [])
  if res.2.isEmpty then res.1
  else { res.1 with raw2valid := res.1.raw2valid ++ res.2 }

def c1_wics1a : RawInput :=
  { id := "W1-1", product_type_code := "S1_WICS1_L2B", start_date := 0,
    publishing_date := some 0, tile := "T1", measurement_day := 20250301,
    relative_orbit_number := some 8, input_path := "a", isPartial := false,
    harvesting_date := 0 }

def c1_wics1b : RawInput :=
  { id := "W1-2", product_type_code := "S1_WICS1_L2B", start_date := 0,
    publishing_date := some 0, tile := "T1", measurement_day := 20250301,
    relative_orbit_number := some 8, input_path := "b", isPartial := false,
    harvesting_date := 0 }

def c1_wics2 : RawInput :=
  { id := "W2-1", product_type_code := "S2_WICS2_L2B", start_date := 0,
    publishing_date := some 0, tile := "T1", measurement_day := 20250301,
    relative_orbit_number := none, input_path := "c", isPartial := false,
    harvesting_date := 0 }

def c1_db : HrwsiDB :=
  { empty_db with raw_inputs := [c1_wics1a, c1_wics1b, c1_wics2] }

/-- C1 counterexample: the claim's invariant — at most one
trigger_validation row per (raw input id, rule) — is violated by a
single deterministic run of wics1s2_daily_tasks: two WICS1 inputs
sharing (tile, measurement_day) with one WICS2 input produce two
WICS1S2_TC validations, both carrying a raw2valid edge to that same
WICS2 input (the probe is evaluated for the WICS1 id only). -/
theorem wics1s2_shares_wics2_counterexample :
    tv_count_for (wics1s2_daily_tasks c1_db 20250301) "W2-1" "WICS1S2_TC" = 2 ∧
    ¬ tv_count_for (wics1s2_daily_tasks c1_db 20250301) "W2-1" "WICS1S2_TC" ≤ 1 := by
  refine ⟨rfl, by decide⟩

/- ------------------------------------------------------------------
   Claim C6: CC tile serialization in one Triggerer L1C cycle
   (Triggerer.get_unprocessed_l1c and the COUNT_* CC tile queries).
   ------------------------------------------------------------------ -/

theorem any_mono {α : Type} {l : List α} {p q : α → Bool}
    (himp : ∀ x ∈ l, p x = true → q x = true) (h : l.any p = true) : l.any q = true := by
  rw [List.any_eq_true] at h ⊢
  obtain ⟨x, hx, hpx⟩ := h
  exact ⟨x, hx, himp x hx hpx⟩

/-- Triggerer.validate_cc_tc: tile on the allowed list, published no
earlier than the CC_TC publication deadline, measured no earlier than
the CC_TC measurement deadline (comparing dates equals comparing the
YYYYMMDD integers).  A NULL publishing date raises in the Python and
the caller's except-and-log makes the input fall through as
ineligible. -/
def validate_cc_tc (cfg : TriggererConfig) (notify_input : RawInput) : Bool :=
  decide (notify_input.tile ∈ cfg.tile_list) &&
  (match notify_input.publishing_date with
   | some p => decide (cfg.date_of_timestamp p ≥ cfg.earliest_acceptable_publication_date "CC_TC")
   | none => false) &&
  decide (notify_input.measurement_day ≥ cfg.earliest_acceptable_measurement_date "CC_TC")

/-- Membership in COUNT_UNFINISHED_CC_PT_ON_TILE_AND_DATE_INTERVAL:
tile `t` is returned iff some joined row — unfinished CC task ⋈
validation ⋈ edge ⋈ raw input on `t` with measurement_day above the
interpolated cutoff ⋈ dispatch ⋈ status row — carries a non-NULL exit
code; `MAX(exit_code) IS NOT NULL` over the tile group holds exactly
when some row of the group has a non-null exit code. -/
def cc_open_gated (db : HrwsiDB) (cutoff : Int) (t : String) : Bool :=
  db.processing_tasks.any (fun pt =>
    !pt.has_ended &&
    db.trigger_validation.any (fun tv =>
      decide (tv.id = pt.trigger_validation_fk_id) &&
      decide (tv.triggering_condition_name = "CC_TC") &&
      db.raw2valid.any (fun e =>
        decide (e.trigger_validation_id = tv.id) &&
        db.raw_inputs.any (fun ri =>
          decide (ri.id = e.raw_input_id) && decide (ri.tile = t) &&
          decide (ri.measurement_day > cutoff) &&
          db.processingtask2nomad.any (fun pn =>
            decide (pn.processing_task_id = pt.id) &&
            db.nomad_job_dispatch.any (fun njd =>
              decide (njd.id = pn.nomad_job_id) &&
              db.processing_status_workflow.any (fun psw =>
                decide (psw.nomad_job_dispatch_fk_id = njd.id) && psw.exit_code.isSome)))))))

/-- `cc_open_gated` with the witnessing open task's raw input pinned
to measurement_day `m0` (the "open task's measurement_day" the claim
compares the new L1C against). -/
def cc_open_gated_md (db : HrwsiDB) (cutoff : Int) (t : String) (m0 : Int) : Bool :=
  db.processing_tasks.any (fun pt =>
    !pt.has_ended &&
    db.trigger_validation.any (fun tv =>
      decide (tv.id = pt.trigger_validation_fk_id) &&
      decide (tv.triggering_condition_name = "CC_TC") &&
      db.raw2valid.any (fun e =>
        decide (e.trigger_validation_id = tv.id) &&
        db.raw_inputs.any (fun ri =>
          decide (ri.id = e.raw_input_id) && decide (ri.tile = t) &&
          decide (ri.measurement_day = m0) &&
          decide (ri.measurement_day > cutoff) &&
          db.processingtask2nomad.any (fun pn =>
            decide (pn.processing_task_id = pt.id) &&
            db.nomad_job_dispatch.any (fun njd =>
              decide (njd.id = pn.nomad_job_id) &&
              db.processing_status_workflow.any (fun psw =>
                decide (psw.nomad_job_dispatch_fk_id = njd.id) && psw.exit_code.isSome)))))))

def gated_tiles (db : HrwsiDB) (cutoff : Int) : List String :=
  ((db.raw_inputs.map (fun r => r.tile)).dedup).filter (cc_open_gated db cutoff)

/-- COUNT_UNDISPATCHED_CC_PT_ON_TILE_AND_DATE_INTERVAL membership: a
CC task above the cutoff on `t` with no processingtask2nomad row. -/
def cc_undispatched (db : HrwsiDB) (cutoff : Int) (t : String) : Bool :=
  db.processing_tasks.any (fun pt =>
    db.trigger_validation.any (fun tv =>
      decide (pt.trigger_validation_fk_id = tv.id) &&
      decide (tv.triggering_condition_name = "CC_TC") &&
      db.raw2valid.any (fun e =>
        decide (e.trigger_validation_id = tv.id) &&
        db.raw_inputs.any (fun ri =>
          decide (ri.id = e.raw_input_id) && decide (ri.tile = t) &&
          decide (ri.measurement_day > cutoff)))) &&
    ! db.processingtask2nomad.any (fun pn => decide (pn.processing_task_id = pt.id)))

def undispatched_tiles (db : HrwsiDB) (cutoff : Int) : List String :=
  ((db.raw_inputs.map (fun r => r.tile)).dedup).filter (cc_undispatched db cutoff)

/-- UNPROCESSED_TV_EXISTS_FOR_THIS_TC_TILE_AND_MEASUREMENT_DAY
_INTERVAL: a CC_TC validation on the tile/interval with no processing
task yet. -/
def unprocessed_tv_exists (db : HrwsiDB) (t : String) (lo hi : Int) : Bool :=
  db.trigger_validation.any (fun tv =>
    decide (tv.triggering_condition_name = "CC_TC") &&
    db.raw2valid.any (fun e =>
      decide (e.trigger_validation_id = tv.id) &&
      db.raw_inputs.any (fun ri =>
        decide (ri.id = e.raw_input_id) && decide (ri.tile = t) &&
        decide (lo ≤ ri.measurement_day) && decide (ri.measurement_day ≤ hi))) &&
    ! db.processing_tasks.any (fun pt => decide (tv.id = pt.trigger_validation_fk_id)))

/-- IS_PREVIOUS_L2A_EXISTS_FOR_THIS_TC_TILE_AND_MEASUREMENT_DAY
_INTERVAL: a CC task whose validation produced a product, with an edge
to a raw input on the tile/interval. -/
def is_previous_l2a_exists (db : HrwsiDB) (t : String) (lo hi : Int) : Bool :=
  db.processing_tasks.any (fun pt =>
    db.trigger_validation.any (fun tv =>
      decide (pt.trigger_validation_fk_id = tv.id) &&
      decide (tv.triggering_condition_name = "CC_TC") &&
      db.products.any (fun p => decide (p.trigger_validation_fk_id = tv.id)) &&
      db.raw2valid.any (fun e =>
        decide (e.trigger_validation_id = tv.id) &&
        db.raw_inputs.any (fun ri =>
          decide (ri.id = e.raw_input_id) && decide (ri.tile = t) &&
          decide (lo ≤ ri.measurement_day) && decide (ri.measurement_day ≤ hi)))))

/-- `ORDER BY ... DESC LIMIT 1` over a row list: keep the best row
seen so far (ties resolved towards the earlier stored row, SQL leaves
them unspecified). -/
def sql_limit1_go {α : Type} (better : α → α → Bool) (init : Option α) (l : List α) :
    Option α :=
  l.foldl (fun acc r =>
    match acc with
    | none => some r
    | some a => if better r a then some r else acc) init

/-- IS_L2A_EXISTS_REQUEST: most recent S2_MAJA_L2A on the tile within
the measurement interval (ORDER BY measurement_day DESC LIMIT 1). -/
def is_l2a_exists (db : HrwsiDB) (t : String) (lo hi : Int) : Option RawInput :=
  sql_limit1_go (fun r a => decide (r.measurement_day > a.measurement_day)) none
    (db.raw_inputs.filter (fun r =>
      decide (r.product_type_code = "S2_MAJA_L2A") && decide (r.tile = t) &&
      decide (lo ≤ r.measurement_day) && decide (r.measurement_day ≤ hi)))

/-- Stable insertion into a measurement_day-ascending list. -/
def insert_by_measurement_day (r : RawInput) : List RawInput → List RawInput
  | [] => [r]
  | x :: xs =>
    if r.measurement_day ≤ x.measurement_day then r :: x :: xs
    else x :: insert_by_measurement_day r xs

/-- `ORDER BY ri.measurement_day` as a stable insertion sort. -/
def order_by_measurement_day : List RawInput → List RawInput
  | [] => []
  | r :: rest => insert_by_measurement_day r (order_by_measurement_day rest)

/-- GET_L1C_UNPROCESSED: the S2MSI1C raw inputs with no raw2valid
edge, ordered by measurement_day. -/
def get_l1c_unprocessed (db : HrwsiDB) : List RawInput :=
  order_by_measurement_day (db.raw_inputs.filter (fun r =>
    decide (r.product_type_code = "S2MSI1C") &&
    ! db.raw2valid.any (fun e => decide (e.raw_input_id = r.id))))

/-- Python `set(a) == set(b)`. -/
def set_eq (a b : List String) : Bool :=
  a.all (fun s => decide (s ∈ b)) && b.all (fun s => decide (s ∈ a))

/-- The per-input loop of Triggerer.get_unprocessed_l1c: break once
every configured tile is invalidated; skip inputs on already-handled
tiles; for an eligible input whose tile is in neither blocked-tile
list and that has no pending CC validation, create the validation (in
INIT mode alone, in NOMINAL mode together with the most recent L2A,
the whole cycle aborting when a lookup crashes), and invalidate the
tile either way. -/
def get_unprocessed_l1c_go (cfg : TriggererConfig) (blocked : List String) :
    HrwsiDB → List String → List RawInput → Option HrwsiDB
  | db, _, [] => some db
  | db, invalid, r :: rest =>
    if set_eq invalid cfg.tile_list then some db
    else if decide (r.tile ∈ invalid) then
      get_unprocessed_l1c_go cfg blocked db invalid rest
    else if validate_cc_tc cfg r then
      if !unprocessed_tv_exists db r.tile
          (cfg.measurement_day_minus_90_days r.measurement_day) r.measurement_day &&
          ! decide (r.tile ∈ blocked) then
        if !is_previous_l2a_exists db r.tile
            (cfg.measurement_day_minus_90_days r.measurement_day) r.measurement_day then
          (create_trigger_validation db [r] "CC_TC" none).bind
            (fun dbn => get_unprocessed_l1c_go cfg blocked dbn (invalid ++ [r.tile]) rest)
        else
          (is_l2a_exists db r.tile
              (cfg.measurement_day_minus_90_days r.measurement_day) r.measurement_day).bind
            (fun l2a =>
              (create_trigger_validation db [r, l2a] "CC_TC" none).bind
                (fun dbn => get_unprocessed_l1c_go cfg blocked dbn (invalid ++ [r.tile]) rest))
      else get_unprocessed_l1c_go cfg blocked db (invalid ++ [r.tile]) rest
    else get_unprocessed_l1c_go cfg blocked db invalid rest

/-- Triggerer.get_unprocessed_l1c: fetch the unprocessed L1Cs and the
two blocked-tile lists once against the initial store, then run the
loop. -/
def get_unprocessed_l1c (db : HrwsiDB) (cfg : TriggererConfig) : Option HrwsiDB :=
  get_unprocessed_l1c_go cfg
    (gated_tiles db cfg.cc_gating_cutoff ++ undispatched_tiles db cfg.cc_gating_cutoff)
    db [] (get_l1c_unprocessed db)

theorem sql_limit1_go_mem {α : Type} (better : α → α → Bool) :
    ∀ (l : List α) (init : Option α) (a : α),
      sql_limit1_go better init l = some a → init = some a ∨ a ∈ l := by
  intro l
  induction l with
  | nil => intro init a h; exact Or.inl h
  | cons r l ih =>
    intro init a h
    unfold sql_limit1_go at h
    rw [List.foldl_cons] at h
    rcases ih _ a h with hstep | hmem
    · cases init with
      | none =>
        simp only at hstep
        right
        exact List.mem_cons.mpr (Or.inl (Option.some.inj hstep).symm)
      | some x =>
        simp only at hstep
        by_cases hp : better r x = true
        · rw [if_pos hp] at hstep
          right
          exact List.mem_cons.mpr (Or.inl (Option.some.inj hstep).symm)
        · rw [if_neg hp] at hstep
          exact Or.inl hstep
    · right
      exact List.mem_cons.mpr (Or.inr hmem)

theorem mem_insert_by_measurement_day (a r : RawInput) :
    ∀ l : List RawInput, a ∈ insert_by_measurement_day r l → a = r ∨ a ∈ l := by
  intro l
  induction l with
  | nil =>
    intro h
    unfold insert_by_measurement_day at h
    exact Or.inl (List.mem_singleton.mp h)
  | cons x xs ih =>
    intro h
    unfold insert_by_measurement_day at h
    by_cases hc : r.measurement_day ≤ x.measurement_day
    · rw [if_pos hc] at h
      rcases List.mem_cons.mp h with rfl | h2
      · exact Or.inl rfl
      · exact Or.inr h2
    · rw [if_neg hc] at h
      rcases List.mem_cons.mp h with rfl | h2
      · exact Or.inr (List.mem_cons_self _ _)
      · rcases ih h2 with h3 | h3
        · exact Or.inl h3
        · exact Or.inr (List.mem_cons_of_mem _ h3)

theorem mem_order_by_measurement_day (a : RawInput) :
    ∀ l : List RawInput, a ∈ order_by_measurement_day l → a ∈ l := by
  intro l
  induction l with
  | nil => intro h; exact absurd h (by simp [order_by_measurement_day])
  | cons r rest ih =>
    intro h
    unfold order_by_measurement_day at h
    rcases mem_insert_by_measurement_day a r _ h with rfl | h2
    · exact List.mem_cons_self _ _
    · exact List.mem_cons_of_mem _ (ih h2)

theorem is_l2a_exists_mem (db : HrwsiDB) (t : String) (lo hi : Int) (l2a : RawInput)
    (h : is_l2a_exists db t lo hi = some l2a) :
    l2a ∈ db.raw_inputs ∧ l2a.tile = t := by
  unfold is_l2a_exists at h
  rcases sql_limit1_go_mem _ _ none l2a h with hinit | hmem
  · exact absurd hinit (by simp)
  · have hmf := List.mem_filter.mp hmem
    refine ⟨hmf.1, ?_⟩
    have hconds := hmf.2
    simp only [Bool.and_eq_true, decide_eq_true_eq] at hconds
    exact hconds.1.1.2

theorem cc_open_gated_of_md (db : HrwsiDB) (cutoff : Int) (t : String) (m0 : Int)
    (h : cc_open_gated_md db cutoff t m0 = true) : cc_open_gated db cutoff t = true := by
  unfold cc_open_gated_md at h
  unfold cc_open_gated
  refine any_mono (fun pt hpt hh => ?_) h
  simp only [Bool.and_eq_true] at hh ⊢
  obtain ⟨h1, h2⟩ := hh
  refine ⟨h1, any_mono (fun tv htv hh2 => ?_) h2⟩
  simp only [Bool.and_eq_true] at hh2 ⊢
  obtain ⟨hd, hany⟩ := hh2
  refine ⟨hd, any_mono (fun e he hh3 => ?_) hany⟩
  simp only [Bool.and_eq_true] at hh3 ⊢
  obtain ⟨hd2, hany2⟩ := hh3
  refine ⟨hd2, any_mono (fun ri hri hh4 => ?_) hany2⟩
  simp only [Bool.and_eq_true] at hh4 ⊢
  obtain ⟨⟨⟨⟨hA1, hA2⟩, _⟩, hA3⟩, hA4⟩ := hh4
  exact ⟨⟨⟨hA1, hA2⟩, hA3⟩, hA4⟩

theorem gated_tiles_mem (db : HrwsiDB) (cutoff : Int) (t : String)
    (h : cc_open_gated db cutoff t = true) :
    t ∈ gated_tiles db cutoff ∨ ∀ ri ∈ db.raw_inputs, ri.tile ≠ t := by
  by_cases hmem : t ∈ (db.raw_inputs.map (fun r => r.tile)).dedup
  · left
    exact List.mem_filter.mpr ⟨hmem, h⟩
  · right
    intro ri hri hc
    exact hmem (List.mem_dedup.mpr (List.mem_map.mpr ⟨ri, hri, hc⟩))

/-- Along the loop, the raw_inputs table never changes and every new
raw2valid edge references a stored raw input whose tile is not in the
blocked-tile list. -/
theorem l1c_go_edges (cfg : TriggererConfig) (blocked : List String) (t : String)
    (hA : t ∈ blocked) :
    ∀ (rest : List RawInput) (db : HrwsiDB) (invalid : List String) (db2 : HrwsiDB),
      (∀ x ∈ rest, x ∈ db.raw_inputs) →
      get_unprocessed_l1c_go cfg blocked db invalid rest = some db2 →
      db2.raw_inputs = db.raw_inputs ∧
      ∀ e ∈ db2.raw2valid, e ∈ db.raw2valid ∨
        ∃ ri ∈ db.raw_inputs, e.raw_input_id = ri.id ∧ ri.tile ≠ t := by
  intro rest
  induction rest with
  | nil =>
    intro db invalid db2 _ h
    obtain rfl : db = db2 := Option.some.inj h
    exact ⟨rfl, fun e he => Or.inl he⟩
  | cons r rest ih =>
    intro db invalid db2 hin h
    have hrdb : r ∈ db.raw_inputs := hin r (List.mem_cons_self r rest)
    have hindb : ∀ x ∈ rest, x ∈ db.raw_inputs :=
      fun x hx => hin x (List.mem_cons_of_mem r hx)
    rw [get_unprocessed_l1c_go] at h
    by_cases hbreak : set_eq invalid cfg.tile_list = true
    · rw [if_pos hbreak] at h
      obtain rfl : db = db2 := Option.some.inj h
      exact ⟨rfl, fun e he => Or.inl he⟩
    · rw [if_neg hbreak] at h
      by_cases hskip : r.tile ∈ invalid
      · rw [if_pos (by exact decide_eq_true hskip)] at h
        exact ih db invalid db2 hindb h
      · rw [if_neg (by simp [hskip])] at h
        by_cases helig : validate_cc_tc cfg r = true
        · rw [if_pos helig] at h
          by_cases hgo : (!unprocessed_tv_exists db r.tile
              (cfg.measurement_day_minus_90_days r.measurement_day) r.measurement_day &&
              ! decide (r.tile ∈ blocked)) = true
          · rw [if_pos hgo] at h
            have hnotblocked : r.tile ∉ blocked := by
              rw [Bool.and_eq_true] at hgo
              have h2 := hgo.2
              simp only [Bool.not_eq_true', decide_eq_false_iff_not] at h2
              exact h2
            have hrt : r.tile ≠ t := fun hc => hnotblocked (hc ▸ hA)
            by_cases hinit : (!is_previous_l2a_exists db r.tile
                (cfg.measurement_day_minus_90_days r.measurement_day) r.measurement_day) = true
            · rw [if_pos hinit] at h
              obtain ⟨dbn, hcr, hnext⟩ := Option.bind_eq_some.mp h
              have hfix2 := (create_tv_fixed db [r] "CC_TC" none dbn hcr).1
              obtain ⟨hfix, hrec⟩ := ih dbn (invalid ++ [r.tile]) db2
                (fun x hx => by rw [hfix2]; exact hindb x hx) hnext
              refine ⟨hfix.trans hfix2, ?_⟩
              intro e he
              rcases hrec e he with hold | ⟨ri, hri, hid, hrit⟩
              · rcases create_tv_r2v_new db [r] "CC_TC" none dbn hcr e hold with
                  h1 | ⟨rr, hrr, hrid⟩
                · exact Or.inl h1
                · right
                  have heq : rr = r := List.mem_singleton.mp hrr
                  exact ⟨r, hrdb, by rw [hrid, heq], hrt⟩
              · right
                rw [hfix2] at hri
                exact ⟨ri, hri, hid, hrit⟩
            · rw [if_neg hinit] at h
              obtain ⟨l2a, hl2a, hbind⟩ := Option.bind_eq_some.mp h
              obtain ⟨dbn, hcr, hnext⟩ := Option.bind_eq_some.mp hbind
              have hfix2 := (create_tv_fixed db [r, l2a] "CC_TC" none dbn hcr).1
              obtain ⟨hfix, hrec⟩ := ih dbn (invalid ++ [r.tile]) db2
                (fun x hx => by rw [hfix2]; exact hindb x hx) hnext
              refine ⟨hfix.trans hfix2, ?_⟩
              intro e he
              rcases hrec e he with hold | ⟨ri, hri, hid, hrit⟩
              · rcases create_tv_r2v_new db [r, l2a] "CC_TC" none dbn hcr e hold with
                  h1 | ⟨rr, hrr, hrid⟩
                · exact Or.inl h1
                · right
                  obtain hl2am := is_l2a_exists_mem db r.tile _ _ l2a hl2a
                  rcases List.mem_cons.mp hrr with heq | hrr2
                  · exact ⟨r, hrdb, by rw [hrid, heq], hrt⟩
                  · have heq2 : rr = l2a := List.mem_singleton.mp hrr2
                    exact ⟨l2a, hl2am.1, by rw [hrid, heq2], by rw [hl2am.2]; exact hrt⟩
              · right
                rw [hfix2] at hri
                exact ⟨ri, hri, hid, hrit⟩
          · rw [if_neg hgo] at h
            exact ih db (invalid ++ [r.tile]) db2 hindb h
        · rw [if_neg helig] at h
          exact ih db invalid db2 hindb h

/-- C6: within one Triggerer L1C cycle, for every tile with at least
one open CC processing task counted by the `MAX(exit_code) IS NOT
NULL` gating expression (an open task whose raw input has
measurement_day `m0`), no new CC_TC trigger validation is created for
an L1C on that tile with measurement_day ≥ m0: the code blocks the
tile entirely, so no new raw2valid edge of the cycle references any
raw input on the tile — in particular not `x`. -/
theorem cc_tile_serialization (db : HrwsiDB) (cfg : TriggererConfig) (db2 : HrwsiDB)
    (t : String) (m0 : Int) (x : RawInput)
    (hids : ∀ a ∈ db.raw_inputs, ∀ b ∈ db.raw_inputs, a.id = b.id → a = b)
    (hgate : cc_open_gated_md db cfg.cc_gating_cutoff t m0 = true)
    (hx : x ∈ db.raw_inputs) (hxt : x.tile = t) (hmd : m0 ≤ x.measurement_day)
    (hrun : get_unprocessed_l1c db cfg = some db2) :
    db2.raw2valid.all (fun e =>
      decide (e ∈ db.raw2valid) || decide (¬ e.raw_input_id = x.id)) = true := by
  have hgate2 := cc_open_gated_of_md db cfg.cc_gating_cutoff t m0 hgate
  rcases gated_tiles_mem db cfg.cc_gating_cutoff t hgate2 with hmemg | hnone
  · have hblocked : t ∈ gated_tiles db cfg.cc_gating_cutoff ++
        undispatched_tiles db cfg.cc_gating_cutoff := List.mem_append.mpr (Or.inl hmemg)
    unfold get_unprocessed_l1c at hrun
    have hsub : ∀ y ∈ get_l1c_unprocessed db, y ∈ db.raw_inputs := by
      intro y hy
      unfold get_l1c_unprocessed at hy
      exact (List.mem_filter.mp (mem_order_by_measurement_day y _ hy)).1
    obtain ⟨-, hedges⟩ := l1c_go_edges cfg _ t hblocked (get_l1c_unprocessed db)
      db [] db2 hsub hrun
    rw [List.all_eq_true]
    intro e he
    rcases hedges e he with hold | ⟨ri, hri, hid, hrit⟩
    · simp [hold]
    · have hne : ¬ e.raw_input_id = x.id := by
        intro hc
        have hrx : ri = x := hids ri hri x hx (hid.symm.trans hc)
        rw [hrx] at hrit
        exact hrit hxt
      simp [hne]
  · exact absurd hxt (hnone x hx)

def c6_gated_raw : RawInput :=
  { id := "L1C-G", product_type_code := "S2MSI1C", start_date := 0,
    publishing_date := some 0, tile := "TT", measurement_day := 100,
    relative_orbit_number := none, input_path := "g", isPartial := false,
    harvesting_date := 5 }

def c6_x : RawInput :=
  { id := "L1C-X", product_type_code := "S2MSI1C", start_date := 0,
    publishing_date := some 0, tile := "TT", measurement_day := 200,
    relative_orbit_number := none, input_path := "x", isPartial := false,
    harvesting_date := 5 }

def c6_y : RawInput :=
  { id := "L1C-Y", product_type_code := "S2MSI1C", start_date := 0,
    publishing_date := some 0, tile := "TU", measurement_day := 150,
    relative_orbit_number := none, input_path := "y", isPartial := false,
    harvesting_date := 5 }

def c6_wekeo : WekeoConfigRow :=
  { triggering_condition_name := "CC_TC", input_type := "S2MSI1C",
    max_day_since_publication_date := 7, max_day_since_measurement_date := 30,
    timeliness := none, nrt_harvest_start_date := none }

def c6_db : HrwsiDB :=
  { empty_db with
    raw_inputs := [c6_gated_raw, c6_x, c6_y],
    trigger_validation :=
      [{ id := 1, triggering_condition_name := "CC_TC",
         is_nrt := true, artificial_measurement_day := none }],
    raw2valid := [{ trigger_validation_id := 1, raw_input_id := "L1C-G" }],
    processing_tasks :=
      [{ id := 1, trigger_validation_fk_id := 1, creation_date := 0,
         has_ended := false, processing_date := none }],
    nomad_job_dispatch := [{ id := "u6", dispatch_date := 0 }],
    processingtask2nomad := [{ nomad_job_id := "u6", processing_task_id := 1 }],
    processing_status_workflow :=
      [{ nomad_job_dispatch_fk_id := "u6", processing_status_id := 4, date := 10,
         exit_code := some 1 }],
    wekeo_api_manager := [c6_wekeo],
    next_tv_id := 2, next_pt_id := 2 }

def c6_cfg : TriggererConfig :=
  { earliest_acceptable_publication_date := fun _ => 0,
    earliest_acceptable_measurement_date := fun _ => 0,
    tile_list := ["TT", "TU"],
    cc_gating_cutoff := 0,
    measurement_day_minus_90_days := fun d => d - 90,
    date_of_timestamp := fun s => s }

/-- Witness for `cc_tile_serialization`: tile TT carries an open CC
task with a recorded exit code, a fresh L1C on TT with a later
measurement day, and an L1C on the free tile TU that does fire. -/
theorem cc_tile_serialization_witness :
    (((get_unprocessed_l1c c6_db c6_cfg).getD empty_db).raw2valid.all (fun e =>
      decide (e ∈ c6_db.raw2valid) || decide (¬ e.raw_input_id = "L1C-X"))) = true :=
  cc_tile_serialization c6_db c6_cfg ((get_unprocessed_l1c c6_db c6_cfg).getD empty_db)
    "TT" 100 c6_x (by decide) (by decide) (by decide) (by decide) (by decide) (by rfl)

/- ### Partial IW_GRDH_1S handling (Triggerer.get_unprocessed_grdh,
Triggerer.handle_grdh_raw_inputs, GET_GRDH_UNPROCESSED) — claims C5
and C10. -/

/-- Single-character string split.  Every separator
get_unprocessed_grdh passes to Python `str.split` is one character
long ('/', '.' and '_'), so this structural recursion over the
character list is the behaviour of the source splits. -/
def split_chars (sep : Char) : List Char → List (List Char)
  | [] => [[]]
  | c :: cs =>
      let r := split_chars sep cs
      if c = sep then [] :: r
      else match r with
        | [] => [[c]]
        | g :: gs => (c :: g) :: gs

def str_split (s : String) (sep : Char) : List String :=
  (split_chars sep s.data).map (fun l => { data := l })

/-- The first-level grouping key of get_unprocessed_grdh: tile,
measurement day and relative orbit number joined by underscores (the
Python f-string prints a NULL orbit as None). -/
def grdh_key (r : RawInput) : String :=
  r.tile ++ "_" ++ toString r.measurement_day ++ "_" ++
    (match r.relative_orbit_number with | none => "None" | some n => toString n)

/-- The key iteration order of the defaultdict built by
get_unprocessed_grdh: distinct grouping keys in first-appearance
order. -/
def group_keys (l : List RawInput) : List String :=
  l.foldl (fun acc r => if grdh_key r ∈ acc then acc else acc ++ [grdh_key r]) []

/-- The rows collected under one grouping key, in encounter order. -/
def group_val (l : List RawInput) (k : String) : List RawInput :=
  l.filter (fun r => decide (grdh_key r = k))

/-- Python `input_path.split('/')[-1].split('.')[0]` (both result
lists are non-empty, so the fallbacks never apply). -/
def product_name (path : String) : String :=
  (str_split ((str_split path '/').getLastD "") '.').headD ""

/-- Field `i` of the underscore-separated product name
(`product_name.split('_')[i]`); `none` models the IndexError the
source raises on a shorter name (the classification below then treats
the group as non-adjacent instead of crashing the cycle). -/
def name_field (path : String) (i : Nat) : Option String :=
  (str_split (product_name path) '_').get? i

/-- The adjacency test applied to the first two rows of a group: field
4 of the product name is the start timestamp, field 5 the stop
timestamp, and the two products are adjacent when the first one's
stop equals the second one's start or the first one's start equals
the second one's stop. -/
def grdh_adjacent (a b : RawInput) : Bool :=
  match name_field a.input_path 4, name_field a.input_path 5,
      name_field b.input_path 4, name_field b.input_path 5 with
  | some s1, some e1, some s2, some e2 => decide (e1 = s2) || decide (s1 = e2)
  | _, _, _, _ => false

/-- The second classification level of get_unprocessed_grdh, for one
group: a singleton group becomes an orphan when its harvesting date
is at least two hours (7200 s) old, and a group of two or more rows
is appended whole to the pair list when its first two rows are
adjacent. -/
def grdh_classify_step (now : Int) (acc : List RawInput × List (List RawInput))
    (value : List RawInput) : List RawInput × List (List RawInput) :=
  match value with
  | [] => acc
  | [v] => if v.harvesting_date + 7200 ≤ now then (acc.1 ++ [v], acc.2) else acc
  | v0 :: v1 :: _ => if grdh_adjacent v0 v1 then (acc.1, acc.2 ++ [value]) else acc

/-- Both classification levels: group the selected rows, then fold
the orphan/pair classification over the groups in key order. -/
def grdh_classify_groups (inputs : List RawInput) (now : Int) :
    List RawInput × List (List RawInput) :=
  (group_keys inputs).foldl
    (fun acc k => grdh_classify_step now acc (group_val inputs k)) ([], [])

/-- GET_GRDH_UNPROCESSED: partial IW_GRDH_1S raw inputs whose
harvesting date lies within the last 7 days (604800 s) and that have
no raw2valid edge. -/
def get_grdh_unprocessed (db : HrwsiDB) (now : Int) : List RawInput :=
  db.raw_inputs.filter (fun ri =>
    decide (ri.product_type_code = "IW_GRDH_1S") && ri.isPartial &&
    decide (now - 604800 ≤ ri.harvesting_date) &&
    ! db.raw2valid.any (fun rv => decide (rv.raw_input_id = ri.id)))

/-- The dedup filter of get_unprocessed_grdh: drop every orphan whose
(tile, measurement day) pair already appears in the previous cycle's
orphan list. -/
def grdh_orphan_filter (ref : List RawInput) (orphans : List RawInput) :
    List RawInput :=
  orphans.filter (fun item =>
    ! decide ((item.tile, item.measurement_day) ∈
      ref.map (fun x => (x.tile, x.measurement_day))))

/-- Triggerer.get_unprocessed_grdh: select, group and classify, then
dedup the orphans against `self.orphan_ref` (initially None; a falsy
reference — None or the empty list — takes the early-return branch
that skips the filter).  In every branch the reference is updated to
the unfiltered orphan list before returning. -/
def get_unprocessed_grdh (db : HrwsiDB) (now : Int)
    (orphan_ref : Option (List RawInput)) :
    (List RawInput × List (List RawInput)) × Option (List RawInput) :=
  match orphan_ref with
  | none =>
      (grdh_classify_groups (get_grdh_unprocessed db now) now,
       some (grdh_classify_groups (get_grdh_unprocessed db now) now).1)
  | some ref =>
      if ref.isEmpty then
        (grdh_classify_groups (get_grdh_unprocessed db now) now,
         some (grdh_classify_groups (get_grdh_unprocessed db now) now).1)
      else
        ((grdh_orphan_filter ref
            (grdh_classify_groups (get_grdh_unprocessed db now) now).1,
          (grdh_classify_groups (get_grdh_unprocessed db now) now).2),
         some (grdh_classify_groups (get_grdh_unprocessed db now) now).1)

/-- One iteration of the Triggerer.handle_grdh_raw_inputs loop: fetch
and classify, then create one Backscatter_10m_TC trigger validation
per (deduped) orphan and one per pair group; an error raised inside a
creation aborts the loop (`none`).  The orphan-reference update
happens inside get_unprocessed_grdh, before any creation. -/
def handle_grdh_raw_inputs (db : HrwsiDB) (now : Int)
    (orphan_ref : Option (List RawInput)) :
    Option HrwsiDB × Option (List RawInput) :=
  (((get_unprocessed_grdh db now orphan_ref).1.1.foldlM
      (fun d r => create_trigger_validation d [r] "Backscatter_10m_TC" none) db).bind
    (fun d => (get_unprocessed_grdh db now orphan_ref).1.2.foldlM
      (fun d g => create_trigger_validation d g "Backscatter_10m_TC" none) d),
   (get_unprocessed_grdh db now orphan_ref).2)

/-- The periodic handle_grdh_raw_inputs loop run at the given cycle
times, threading the database and the orphan reference. -/
def run_grdh_cycles : List Int → HrwsiDB → Option (List RawInput) →
    Option (HrwsiDB × Option (List RawInput))
  | [], db, ref => some (db, ref)
  | t :: ts, db, ref =>
      match handle_grdh_raw_inputs db t ref with
      | (some db2, ref2) => run_grdh_cycles ts db2 ref2
      | (none, _) => none

/-- A selection of exactly two rows under one key whose first two
rows are adjacent classifies as one pair group and no orphan. -/
theorem grdh_classify_pair (p q : RawInput) (now : Int)
    (hkey : grdh_key q = grdh_key p) (hadj : grdh_adjacent p q = true) :
    grdh_classify_groups [p, q] now = ([], [[p, q]]) := by
  have hk : group_keys [p, q] = [grdh_key p] := by
    simp [group_keys, hkey]
  have hv : group_val [p, q] (grdh_key p) = [p, q] := by
    simp [group_val, List.filter, hkey]
  unfold grdh_classify_groups
  rw [hk]
  simp only [List.foldl]
  rw [hv]
  simp [grdh_classify_step, hadj]

/-- A selection of one row at least two hours old classifies as one
orphan and no pair. -/
theorem grdh_classify_orphan (o : RawInput) (now : Int)
    (ht : o.harvesting_date + 7200 ≤ now) :
    grdh_classify_groups [o] now = ([o], []) := by
  have hk : group_keys [o] = [grdh_key o] := by
    simp [group_keys]
  have hv : group_val [o] (grdh_key o) = [o] := by
    simp [group_val, List.filter]
  unfold grdh_classify_groups
  rw [hk]
  simp only [List.foldl]
  rw [hv]
  simp [grdh_classify_step, ht]

/-- When the classification produces no orphan, the dedup filter is
irrelevant: every orphan-reference state yields the same result and
the reference becomes the empty list. -/
theorem get_unprocessed_grdh_no_orphans (db : HrwsiDB) (now : Int)
    (ref : Option (List RawInput)) (pairs : List (List RawInput))
    (h : grdh_classify_groups (get_grdh_unprocessed db now) now = ([], pairs)) :
    get_unprocessed_grdh db now ref = (([], pairs), some []) := by
  cases ref with
  | none => simp [get_unprocessed_grdh, h]
  | some r =>
    by_cases hr : r.isEmpty <;>
      simp [get_unprocessed_grdh, h, hr, grdh_orphan_filter]

/-- On an adjacent two-row selection, one cycle of
handle_grdh_raw_inputs is exactly one create_trigger_validation call
bundling both rows. -/
theorem handle_grdh_pair_eq (db : HrwsiDB) (now : Int)
    (ref : Option (List RawInput)) (p q : RawInput)
    (hsel : get_grdh_unprocessed db now = [p, q])
    (hkey : grdh_key q = grdh_key p) (hadj : grdh_adjacent p q = true) :
    handle_grdh_raw_inputs db now ref =
      (create_trigger_validation db [p, q] "Backscatter_10m_TC" none, some []) := by
  have hcls : grdh_classify_groups (get_grdh_unprocessed db now) now = ([], [[p, q]]) := by
    rw [hsel]
    exact grdh_classify_pair p q now hkey hadj
  unfold handle_grdh_raw_inputs
  rw [get_unprocessed_grdh_no_orphans db now ref [[p, q]] hcls]
  simp only [List.foldlM_nil, List.foldlM_cons]
  cases hc : create_trigger_validation db [p, q] "Backscatter_10m_TC" none <;>
    simp [hc]

/-- On a single-orphan selection that the dedup does not remove, one
cycle of handle_grdh_raw_inputs is exactly one
create_trigger_validation call bundling the orphan alone, and the
reference becomes that orphan list. -/
theorem handle_grdh_orphan_eq (db : HrwsiDB) (now : Int)
    (ref : Option (List RawInput)) (o : RawInput)
    (hsel : get_grdh_unprocessed db now = [o])
    (ht : o.harvesting_date + 7200 ≤ now)
    (hallow : ref = none ∨ ∃ l, ref = some l ∧ (l.isEmpty = true ∨
      (o.tile, o.measurement_day) ∉ l.map (fun x => (x.tile, x.measurement_day)))) :
    handle_grdh_raw_inputs db now ref =
      (create_trigger_validation db [o] "Backscatter_10m_TC" none, some [o]) := by
  have hcls : grdh_classify_groups (get_grdh_unprocessed db now) now = ([o], []) := by
    rw [hsel]
    exact grdh_classify_orphan o now ht
  have hg : get_unprocessed_grdh db now ref = (([o], []), some [o]) := by
    rcases hallow with rfl | ⟨l, rfl, hl⟩
    · simp [get_unprocessed_grdh, hcls]
    · rcases hl with hl | hl
      · simp [get_unprocessed_grdh, hcls, hl]
      · by_cases he : l.isEmpty
        · simp [get_unprocessed_grdh, hcls, he, grdh_orphan_filter]
        · have hl2 : ∀ x ∈ l, x.tile = o.tile →
              ¬ x.measurement_day = o.measurement_day := by
            intro x hx hteq hmeq
            exact hl (List.mem_map.mpr ⟨x, hx, by rw [hteq, hmeq]⟩)
          simp [get_unprocessed_grdh, hcls, he, grdh_orphan_filter]
          exact hl2
  unfold handle_grdh_raw_inputs
  rw [hg]
  simp only [List.foldlM_nil, List.foldlM_cons]
  cases hc : create_trigger_validation db [o] "Backscatter_10m_TC" none <;>
    simp [hc]

/-- On a single-orphan selection whose (tile, measurement day) pair
already sits in a non-empty orphan reference, the cycle creates
nothing at all: the store is returned unchanged while the reference
is refreshed to contain the very same orphan again. -/
theorem handle_grdh_starved_eq (db : HrwsiDB) (now : Int)
    (l : List RawInput) (o : RawInput)
    (hsel : get_grdh_unprocessed db now = [o])
    (ht : o.harvesting_date + 7200 ≤ now)
    (hne : l.isEmpty = false)
    (hmem : (o.tile, o.measurement_day) ∈ l.map (fun x => (x.tile, x.measurement_day))) :
    handle_grdh_raw_inputs db now (some l) = (some db, some [o]) := by
  have hcls : grdh_classify_groups (get_grdh_unprocessed db now) now = ([o], []) := by
    rw [hsel]
    exact grdh_classify_orphan o now ht
  have hg : get_unprocessed_grdh db now (some l) = (([], []), some [o]) := by
    obtain ⟨x, hx, hxeq⟩ := List.mem_map.mp hmem
    rw [Prod.mk.injEq] at hxeq
    simp [get_unprocessed_grdh, hcls, hne, grdh_orphan_filter]
    exact ⟨x, hx, hxeq.1, hxeq.2⟩
  unfold handle_grdh_raw_inputs
  rw [hg]
  simp

def c5_wekeo : WekeoConfigRow :=
  { triggering_condition_name := "Backscatter_10m_TC", input_type := "IW_GRDH_1S",
    max_day_since_publication_date := 7, max_day_since_measurement_date := 30,
    timeliness := none, nrt_harvest_start_date := some 1 }

/-- A partial GRDH harvested at time 0 (stop timestamp T000100). -/
def c5_A : RawInput :=
  { id := "GA", product_type_code := "IW_GRDH_1S", start_date := 0,
    publishing_date := some 0, tile := "T1", measurement_day := 20240101,
    relative_orbit_number := some 15,
    input_path := "data/S1A_IW_GRDH_1SDV_20240101T000000_20240101T000100_A.SAFE",
    isPartial := true, harvesting_date := 0 }

/-- The adjacent partner partial (start timestamp T000100), harvested
three hours later — after `c5_A` already fired alone. -/
def c5_B : RawInput :=
  { id := "GB", product_type_code := "IW_GRDH_1S", start_date := 0,
    publishing_date := some 0, tile := "T1", measurement_day := 20240101,
    relative_orbit_number := some 15,
    input_path := "data/S1A_IW_GRDH_1SDV_20240101T000100_20240101T000200_B.SAFE",
    isPartial := true, harvesting_date := 10800 }

def c5_db1 : HrwsiDB :=
  { empty_db with raw_inputs := [c5_A], wekeo_api_manager := [c5_wekeo] }

/-- The orphan reference after the first cycle (2 h after `c5_A`). -/
def c5_ref1 : Option (List RawInput) :=
  (handle_grdh_raw_inputs c5_db1 7200 none).2

/-- The store after the first cycle fired `c5_A` alone, with `c5_B`
harvested in the meantime. -/
def c5_db2 : HrwsiDB :=
  { (handle_grdh_raw_inputs c5_db1 7200 none).1.getD empty_db with
    raw_inputs :=
      ((handle_grdh_raw_inputs c5_db1 7200 none).1.getD empty_db).raw_inputs ++ [c5_B] }

/-- C5 counterexample: the claim says a partial that stays unpaired
for at least 2 h after its harvesting date fires alone in the next
periodic cycle.  After `c5_A` fired alone in cycle one, the orphan
reference holds its (tile, measurement day) pair; `c5_B` — the
adjacent partner that arrived too late — is selected and at least 2 h
old in cycle two, yet the dedup filter removes it and refreshes the
reference with `c5_B` itself, so cycle two and every later cycle
leave the store unchanged and no Backscatter_10m_TC validation for
`c5_B` is ever created. -/
theorem grdh_orphan_never_fires_counterexample :
    c5_ref1 = some [c5_A] ∧
    c5_B.harvesting_date + 7200 ≤ 18000 ∧
    c5_B ∈ get_grdh_unprocessed c5_db2 18000 ∧
    handle_grdh_raw_inputs c5_db2 18000 c5_ref1 = (some c5_db2, some [c5_B]) ∧
    handle_grdh_raw_inputs c5_db2 25000 (some [c5_B]) = (some c5_db2, some [c5_B]) ∧
    tv_count_for c5_db2 c5_B.id "Backscatter_10m_TC" = 0 :=
  ⟨by rfl, by decide, by decide, by rfl, by rfl, by rfl⟩

/-- C5 (amended): the pairing and orphan behaviour of the periodic
GRDH rule.  (1) When the selection holds exactly two rows of one
group whose products are adjacent, the cycle creates exactly one
Backscatter_10m_TC validation carrying both inputs as raw2valid
edges.  (2) When the selection holds one orphan at least 2 h past its
harvesting date and the orphan reference does not block its (tile,
measurement day) pair — the reference is falsy or lacks the pair —
the cycle creates exactly one single-input validation for it.
(3) But when a non-empty reference from the previous cycle holds the
orphan's (tile, measurement day) pair, the cycle creates nothing and
refreshes the reference with the orphan itself, so the orphan is
starved again in every later identical cycle — firing in the next
cycle is not guaranteed. -/
theorem grdh_pair_orphan_dedup (db : HrwsiDB) (now : Int)
    (ref : Option (List RawInput)) (p q o : RawInput) (db2 : HrwsiDB)
    (ref2 : Option (List RawInput)) :
    (get_grdh_unprocessed db now = [p, q] → grdh_key q = grdh_key p →
      grdh_adjacent p q = true →
      handle_grdh_raw_inputs db now ref = (some db2, ref2) →
      ∃ b, db2.trigger_validation = db.trigger_validation ++
          [{ id := db.next_tv_id, triggering_condition_name := "Backscatter_10m_TC",
             is_nrt := b, artificial_measurement_day := none }] ∧
        db2.raw2valid = db.raw2valid ++
          [{ trigger_validation_id := db.next_tv_id, raw_input_id := p.id },
           { trigger_validation_id := db.next_tv_id, raw_input_id := q.id }] ∧
        ref2 = some []) ∧
    (get_grdh_unprocessed db now = [o] → o.harvesting_date + 7200 ≤ now →
      (ref = none ∨ ∃ l, ref = some l ∧ (l.isEmpty = true ∨
        (o.tile, o.measurement_day) ∉ l.map (fun x => (x.tile, x.measurement_day)))) →
      handle_grdh_raw_inputs db now ref = (some db2, ref2) →
      ∃ b, db2.trigger_validation = db.trigger_validation ++
          [{ id := db.next_tv_id, triggering_condition_name := "Backscatter_10m_TC",
             is_nrt := b, artificial_measurement_day := none }] ∧
        db2.raw2valid = db.raw2valid ++
          [{ trigger_validation_id := db.next_tv_id, raw_input_id := o.id }] ∧
        ref2 = some [o]) ∧
    (∀ l, get_grdh_unprocessed db now = [o] → o.harvesting_date + 7200 ≤ now →
      ref = some l → l.isEmpty = false →
      (o.tile, o.measurement_day) ∈ l.map (fun x => (x.tile, x.measurement_day)) →
      handle_grdh_raw_inputs db now ref = (some db, some [o])) := by
  refine ⟨?_, ?_, ?_⟩
  · intro hsel hkey hadj hcr
    rw [handle_grdh_pair_eq db now ref p q hsel hkey hadj] at hcr
    rw [Prod.mk.injEq] at hcr
    obtain ⟨hcreate, href⟩ := hcr
    rcases create_tv_shape db [p, q] "Backscatter_10m_TC" none db2 hcreate with
      ⟨hnil, _⟩ | ⟨b, bs, _, rfl⟩
    · exact absurd hnil (by simp)
    · exact ⟨b, rfl, by simp, href.symm⟩
  · intro hsel ht hallow hcr
    rw [handle_grdh_orphan_eq db now ref o hsel ht hallow] at hcr
    rw [Prod.mk.injEq] at hcr
    obtain ⟨hcreate, href⟩ := hcr
    rcases create_tv_shape db [o] "Backscatter_10m_TC" none db2 hcreate with
      ⟨hnil, _⟩ | ⟨b, bs, _, rfl⟩
    · exact absurd hnil (by simp)
    · exact ⟨b, rfl, by simp, href.symm⟩
  · intro l hsel ht href hne hmem
    subst href
    exact handle_grdh_starved_eq db now l o hsel ht hne hmem

def c5w_B : RawInput :=
  { c5_B with harvesting_date := 600 }

def c5w_db : HrwsiDB :=
  { empty_db with
    raw_inputs := [c5_A, c5w_B],
    wekeo_api_manager := [c5_wekeo] }

def c5w_db2 : HrwsiDB :=
  (handle_grdh_raw_inputs c5w_db 1000 none).1.getD empty_db

/-- Witness for `grdh_pair_orphan_dedup`: two adjacent partials of
one (tile, measurement day, orbit) group, selected together, fire one
validation with both raw2valid edges. -/
theorem grdh_pair_orphan_dedup_witness :
    c5w_db2.raw2valid = c5w_db.raw2valid ++
      [{ trigger_validation_id := c5w_db.next_tv_id, raw_input_id := "GA" },
       { trigger_validation_id := c5w_db.next_tv_id, raw_input_id := "GB" }] :=
  Exists.elim ((grdh_pair_orphan_dedup c5w_db 1000 none c5_A
      c5w_B c5_A c5w_db2 (some [])).1
      (by rfl) (by decide) (by decide) (by rfl))
    (fun b hb => hb.2.1)

/-- What GET_GRDH_UNPROCESSED guarantees about every selected row. -/
theorem get_grdh_unprocessed_window (db : HrwsiDB) (now : Int) (r : RawInput)
    (h : r ∈ get_grdh_unprocessed db now) :
    r.product_type_code = "IW_GRDH_1S" ∧ r.isPartial = true ∧
    now - 604800 ≤ r.harvesting_date ∧
    ∀ e ∈ db.raw2valid, e.raw_input_id ≠ r.id := by
  obtain ⟨hm, hp⟩ := List.mem_filter.mp h
  simp only [Bool.and_eq_true, decide_eq_true_eq, Bool.not_eq_true',
    List.any_eq_false, decide_eq_false_iff_not] at hp
  exact ⟨hp.1.1.1, hp.1.1.2, hp.1.2, fun e he heq => hp.2 e he heq⟩

theorem get_grdh_unprocessed_sub (db : HrwsiDB) (now : Int) :
    ∀ x ∈ get_grdh_unprocessed db now, x ∈ db.raw_inputs :=
  fun _ hx => (List.mem_filter.mp hx).1

/-- One classification step only adds rows of the processed group. -/
theorem grdh_classify_step_sub (now : Int) (inputs : List RawInput)
    (acc : List RawInput × List (List RawInput)) (value : List RawInput)
    (hval : ∀ x ∈ value, x ∈ inputs)
    (h1 : ∀ x ∈ acc.1, x ∈ inputs) (h2 : ∀ g ∈ acc.2, ∀ x ∈ g, x ∈ inputs) :
    (∀ x ∈ (grdh_classify_step now acc value).1, x ∈ inputs) ∧
    (∀ g ∈ (grdh_classify_step now acc value).2, ∀ x ∈ g, x ∈ inputs) := by
  rcases value with _ | ⟨v0, _ | ⟨v1, rest⟩⟩
  · simpa [grdh_classify_step] using ⟨h1, h2⟩
  · simp only [grdh_classify_step]
    by_cases hc : v0.harvesting_date + 7200 ≤ now
    · rw [if_pos hc]
      refine ⟨?_, h2⟩
      intro x hx
      rcases List.mem_append.mp hx with hx | hx
      · exact h1 x hx
      · rw [List.mem_singleton.mp hx]
        exact hval v0 (by simp)
    · rw [if_neg hc]
      exact ⟨h1, h2⟩
  · simp only [grdh_classify_step]
    by_cases hc : grdh_adjacent v0 v1 = true
    · rw [if_pos hc]
      refine ⟨h1, ?_⟩
      intro g hg
      rcases List.mem_append.mp hg with hg | hg
      · exact h2 g hg
      · rw [List.mem_singleton.mp hg]
        exact hval
    · rw [if_neg hc]
      exact ⟨h1, h2⟩

theorem grdh_classify_fold_sub (inputs : List RawInput) (now : Int) :
    ∀ (ks : List String) (acc : List RawInput × List (List RawInput)),
    (∀ x ∈ acc.1, x ∈ inputs) → (∀ g ∈ acc.2, ∀ x ∈ g, x ∈ inputs) →
    (∀ x ∈ (ks.foldl (fun a k => grdh_classify_step now a (group_val inputs k)) acc).1,
        x ∈ inputs) ∧
    (∀ g ∈ (ks.foldl (fun a k => grdh_classify_step now a (group_val inputs k)) acc).2,
        ∀ x ∈ g, x ∈ inputs) := by
  intro ks
  induction ks with
  | nil => intro acc h1 h2; exact ⟨h1, h2⟩
  | cons k ks ih =>
    intro acc h1 h2
    rw [List.foldl_cons]
    have hval : ∀ x ∈ group_val inputs k, x ∈ inputs :=
      fun x hx => (List.mem_filter.mp hx).1
    obtain ⟨g1, g2⟩ := grdh_classify_step_sub now inputs acc (group_val inputs k)
      hval h1 h2
    exact ih _ g1 g2

/-- Every classified orphan and every member of a classified pair
group comes from the selection. -/
theorem grdh_classify_groups_sub (inputs : List RawInput) (now : Int) :
    (∀ x ∈ (grdh_classify_groups inputs now).1, x ∈ inputs) ∧
    (∀ g ∈ (grdh_classify_groups inputs now).2, ∀ x ∈ g, x ∈ inputs) := by
  unfold grdh_classify_groups
  exact grdh_classify_fold_sub inputs now (group_keys inputs) ([], [])
    (by simp) (by simp)

/-- Every orphan and pair member returned by get_unprocessed_grdh was
selected by GET_GRDH_UNPROCESSED. -/
theorem get_unprocessed_grdh_sub (db : HrwsiDB) (now : Int)
    (ref : Option (List RawInput)) :
    (∀ x ∈ (get_unprocessed_grdh db now ref).1.1, x ∈ get_grdh_unprocessed db now) ∧
    (∀ g ∈ (get_unprocessed_grdh db now ref).1.2, ∀ x ∈ g,
      x ∈ get_grdh_unprocessed db now) := by
  obtain ⟨h1, h2⟩ := grdh_classify_groups_sub (get_grdh_unprocessed db now) now
  cases ref with
  | none => exact ⟨h1, h2⟩
  | some l =>
    by_cases he : l.isEmpty
    · simp only [get_unprocessed_grdh, if_pos he]
      exact ⟨h1, h2⟩
    · simp only [get_unprocessed_grdh, if_neg he]
      refine ⟨?_, h2⟩
      intro x hx
      exact h1 x (List.mem_filter.mp hx).1

/-- Folding create_trigger_validation over singleton bundles never
adds a raw2valid edge to an input outside the bundles, and never
touches raw_inputs. -/
theorem create_orphan_edges (tc : String) (amd : Option Int) (rid : String) :
    ∀ (orphans : List RawInput) (db db2 : HrwsiDB),
    (∀ x ∈ orphans, x.id ≠ rid) →
    orphans.foldlM (fun d r => create_trigger_validation d [r] tc amd) db = some db2 →
    db2.raw_inputs = db.raw_inputs ∧
    ∀ e ∈ db2.raw2valid, e ∈ db.raw2valid ∨ e.raw_input_id ≠ rid := by
  intro orphans
  induction orphans with
  | nil =>
    intro db db2 _ h
    obtain rfl : db = db2 := by simpa [List.foldlM_nil] using h
    exact ⟨rfl, fun e he => Or.inl he⟩
  | cons o os ih =>
    intro db db2 hids h
    rw [List.foldlM_cons] at h
    rw [Option.bind_eq_bind] at h
    obtain ⟨dm, hdm, hrest⟩ := Option.bind_eq_some.mp h
    obtain ⟨hfix, hedges⟩ := ih dm db2 (fun x hx => hids x (by simp [hx])) hrest
    refine ⟨hfix.trans (create_tv_fixed db [o] tc amd dm hdm).1, ?_⟩
    intro e he
    rcases hedges e he with he2 | hne
    · rcases create_tv_r2v_new db [o] tc amd dm hdm e he2 with he3 | ⟨x, hx, hxid⟩
      · exact Or.inl he3
      · right
        rw [hxid, List.mem_singleton.mp hx]
        exact hids o (by simp)
    · exact Or.inr hne

/-- The same for the fold over pair groups. -/
theorem create_group_edges (tc : String) (amd : Option Int) (rid : String) :
    ∀ (groups : List (List RawInput)) (db db2 : HrwsiDB),
    (∀ g ∈ groups, ∀ x ∈ g, x.id ≠ rid) →
    groups.foldlM (fun d g => create_trigger_validation d g tc amd) db = some db2 →
    db2.raw_inputs = db.raw_inputs ∧
    ∀ e ∈ db2.raw2valid, e ∈ db.raw2valid ∨ e.raw_input_id ≠ rid := by
  intro groups
  induction groups with
  | nil =>
    intro db db2 _ h
    obtain rfl : db = db2 := by simpa [List.foldlM_nil] using h
    exact ⟨rfl, fun e he => Or.inl he⟩
  | cons g gs ih =>
    intro db db2 hids h
    rw [List.foldlM_cons] at h
    rw [Option.bind_eq_bind] at h
    obtain ⟨dm, hdm, hrest⟩ := Option.bind_eq_some.mp h
    obtain ⟨hfix, hedges⟩ := ih dm db2 (fun x hx => hids x (by simp [hx])) hrest
    refine ⟨hfix.trans (create_tv_fixed db g tc amd dm hdm).1, ?_⟩
    intro e he
    rcases hedges e he with he2 | hne
    · rcases create_tv_r2v_new db g tc amd dm hdm e he2 with he3 | ⟨x, hx, hxid⟩
      · exact Or.inl he3
      · right
        rw [hxid]
        exact hids g (by simp) x hx
    · exact Or.inr hne

/-- One handle_grdh_raw_inputs cycle never adds a raw2valid edge to
an input outside the cycle's GET_GRDH_UNPROCESSED selection. -/
theorem handle_grdh_edges (db : HrwsiDB) (now : Int)
    (ref : Option (List RawInput)) (db2 : HrwsiDB)
    (ref2 : Option (List RawInput)) (rid : String)
    (hnot : ∀ x ∈ get_grdh_unprocessed db now, x.id ≠ rid)
    (h : handle_grdh_raw_inputs db now ref = (some db2, ref2)) :
    db2.raw_inputs = db.raw_inputs ∧
    ∀ e ∈ db2.raw2valid, e ∈ db.raw2valid ∨ e.raw_input_id ≠ rid := by
  unfold handle_grdh_raw_inputs at h
  rw [Prod.mk.injEq] at h
  obtain ⟨hX, _⟩ := h
  obtain ⟨dm, hm, hp⟩ := Option.bind_eq_some.mp hX
  obtain ⟨hs1, hs2⟩ := get_unprocessed_grdh_sub db now ref
  obtain ⟨hfix1, hedge1⟩ := create_orphan_edges "Backscatter_10m_TC" none rid
    (get_unprocessed_grdh db now ref).1.1 db dm
    (fun x hx => hnot x (hs1 x hx)) hm
  obtain ⟨hfix2, hedge2⟩ := create_group_edges "Backscatter_10m_TC" none rid
    (get_unprocessed_grdh db now ref).1.2 dm db2
    (fun g hg x hx => hnot x (hs2 g hg x hx)) hp
  refine ⟨hfix2.trans hfix1, ?_⟩
  intro e he
  rcases hedge2 e he with he2 | hne
  · exact hedge1 e he2
  · exact Or.inr hne

/-- Across any sequence of cycle times all past an input's 7-day
window, the periodic GRDH loop never links a raw2valid edge to that
input. -/
theorem run_grdh_cycles_edges (r : RawInput) :
    ∀ (times : List Int) (db : HrwsiDB) (ref : Option (List RawInput))
      (db2 : HrwsiDB) (ref2 : Option (List RawInput)),
    (∀ a ∈ db.raw_inputs, ∀ b ∈ db.raw_inputs, a.id = b.id → a = b) →
    r ∈ db.raw_inputs →
    (∀ t ∈ times, r.harvesting_date + 604800 < t) →
    run_grdh_cycles times db ref = some (db2, ref2) →
    db2.raw_inputs = db.raw_inputs ∧
    ∀ e ∈ db2.raw2valid, e ∈ db.raw2valid ∨ e.raw_input_id ≠ r.id := by
  intro times
  induction times with
  | nil =>
    intro db ref db2 ref2 _ _ _ h
    rw [run_grdh_cycles] at h
    obtain ⟨h1, -⟩ := Prod.mk.injEq .. ▸ Option.some.inj h
    exact ⟨h1 ▸ rfl, fun e he => Or.inl (h1 ▸ he)⟩
  | cons t ts ih =>
    intro db ref db2 ref2 hids hr hwin h
    rcases hh : handle_grdh_raw_inputs db t ref with ⟨odb, refm⟩
    rw [run_grdh_cycles, hh] at h
    cases odb with
    | none => exact Option.noConfusion h
    | some dbm =>
      have h2 : run_grdh_cycles ts dbm refm = some (db2, ref2) := h
      have hnot : ∀ x ∈ get_grdh_unprocessed db t, x.id ≠ r.id := by
        intro x hx heq
        have hxr : x = r := hids x (get_grdh_unprocessed_sub db t x hx) r hr heq
        subst hxr
        have hw := (get_grdh_unprocessed_window db t x hx).2.2.1
        have := hwin t (by simp)
        omega
      obtain ⟨hfix, hedge⟩ := handle_grdh_edges db t ref dbm refm r.id hnot hh
      obtain ⟨hfix2, hedge2⟩ := ih dbm refm db2 ref2
        (by rw [hfix]; exact hids) (by rw [hfix]; exact hr)
        (fun u hu => hwin u (by simp [hu])) h2
      refine ⟨hfix2.trans hfix, ?_⟩
      intro e he
      rcases hedge2 e he with he2 | hne
      · exact hedge e he2
      · exact Or.inr hne

/-- With no raw2valid edge to a given input, no trigger_validation
row is counted for it under any rule. -/
theorem tv_count_zero_of_no_edge (db : HrwsiDB) (rid tc : String)
    (h : ∀ e ∈ db.raw2valid, e.raw_input_id ≠ rid) :
    tv_count_for db rid tc = 0 := by
  unfold tv_count_for
  rw [List.length_eq_zero, List.filter_eq_nil_iff]
  intro tv _ hpred
  rw [Bool.and_eq_true] at hpred
  obtain ⟨-, hedge⟩ := hpred
  unfold has_edge at hedge
  rw [List.any_eq_true] at hedge
  obtain ⟨e, he, hee⟩ := hedge
  rw [Bool.and_eq_true] at hee
  exact h e he (of_decide_eq_true hee.2)

/-- C10: the periodic GRDH rule only ever examines partial IW_GRDH_1S
inputs harvested within the last 7 days and without a raw2valid edge;
consequently a partial input that was neither paired nor fired as an
orphan within 7 days of its harvesting date is never selected in any
later cycle and never obtains a Backscatter_10m_TC validation. -/
theorem grdh_seven_day_window (db : HrwsiDB) (r : RawInput) (times : List Int)
    (ref : Option (List RawInput)) (db2 : HrwsiDB) (ref2 : Option (List RawInput))
    (hids : ∀ a ∈ db.raw_inputs, ∀ b ∈ db.raw_inputs, a.id = b.id → a = b)
    (hr : r ∈ db.raw_inputs)
    (hwin : ∀ t ∈ times, r.harvesting_date + 604800 < t)
    (hnoedge : ∀ e ∈ db.raw2valid, e.raw_input_id ≠ r.id)
    (hrun : run_grdh_cycles times db ref = some (db2, ref2)) :
    (∀ now x, x ∈ get_grdh_unprocessed db now →
      x.product_type_code = "IW_GRDH_1S" ∧ x.isPartial = true ∧
      now - 604800 ≤ x.harvesting_date ∧
      ∀ e ∈ db.raw2valid, e.raw_input_id ≠ x.id) ∧
    (∀ now, r.harvesting_date + 604800 < now → r ∉ get_grdh_unprocessed db now) ∧
    (∀ e ∈ db2.raw2valid, e.raw_input_id ≠ r.id) ∧
    tv_count_for db2 r.id "Backscatter_10m_TC" = 0 := by
  have hedges := run_grdh_cycles_edges r times db ref db2 ref2 hids hr hwin hrun
  have hnoedge2 : ∀ e ∈ db2.raw2valid, e.raw_input_id ≠ r.id := by
    intro e he
    rcases hedges.2 e he with he2 | hne
    · exact hnoedge e he2
    · exact hne
  refine ⟨fun now x hx => get_grdh_unprocessed_window db now x hx, ?_, hnoedge2, ?_⟩
  · intro now hlate hmem
    have hw := (get_grdh_unprocessed_window db now r hmem).2.2.1
    omega
  · exact tv_count_zero_of_no_edge db2 r.id "Backscatter_10m_TC" hnoedge2

def c10_r : RawInput :=
  { id := "GC", product_type_code := "IW_GRDH_1S", start_date := 0,
    publishing_date := some 0, tile := "T9", measurement_day := 20240101,
    relative_orbit_number := some 7,
    input_path := "data/S1A_IW_GRDH_1SDV_20240101T000000_20240101T000100_C.SAFE",
    isPartial := true, harvesting_date := 0 }

def c10_db : HrwsiDB :=
  { empty_db with raw_inputs := [c10_r] }

def c10_db2 : HrwsiDB :=
  ((run_grdh_cycles [700000, 800000] c10_db none).getD (empty_db, none)).1

/-- Witness for `grdh_seven_day_window`: a partial harvested at time
0 is no longer selected at time 700000 and two late cycles leave it
without any Backscatter_10m_TC validation. -/
theorem grdh_seven_day_window_witness :
    c10_r ∉ get_grdh_unprocessed c10_db 700000 ∧
    tv_count_for c10_db2 c10_r.id "Backscatter_10m_TC" = 0 := by
  have h := grdh_seven_day_window c10_db c10_r [700000, 800000] none c10_db2 (some [])
    (by decide) (by decide) (by decide) (by decide) (by rfl)
  exact ⟨h.2.1 700000 (by decide), h.2.2.2⟩

end Hrwsi
